import Mathlib

/-!
# ANGLE D3D11 back end: pixel transfer engine and lazily resolved resources

A shallow embedding of `PixelTransfer11.cpp`, of the resource helpers of
`renderer11_utils.h` and of the workaround flags of `WorkaroundsD3D.h`.

Conventions of the embedding.

* `unsigned int` values are natural numbers reduced modulo `2 ^ 32` wherever the
  C++ arithmetic can wrap; `int` values are integers.
* `float` values are read as exact rationals (no rounding, and a division by zero
  is the rational `0` rather than an infinity).
* A pointer to a native object is `Option Handle`; `none` is `nullptr`.
* The device is an explicit state (`Renderer11`): it carries the outcomes of the
  fallible native calls still to come, the next fresh object identity, and the
  log of every native call made so far.
* The embedding is that of a build in which `ASSERT` is compiled out, so an
  `ASSERT(...)` line of the source contributes nothing.
-/

/-! ## Basic types -/

/-- A GL enumerant (`GLenum`, an unsigned integer). -/
abbrev GLenum := Nat

/-- Component type enumerant `GL_INT`. -/
def GL_INT : GLenum := 0x1404

/-- Component type enumerant `GL_UNSIGNED_INT`. -/
def GL_UNSIGNED_INT : GLenum := 0x1405

/-- Component type enumerant `GL_FLOAT`. -/
def GL_FLOAT : GLenum := 0x1406

/-- Component type enumerant `GL_UNSIGNED_NORMALIZED`. -/
def GL_UNSIGNED_NORMALIZED : GLenum := 0x8C17

/-- Component type enumerant `GL_SIGNED_NORMALIZED`. -/
def GL_SIGNED_NORMALIZED : GLenum := 0x8F9C

/-- Error code `GL_NO_ERROR`. -/
def GL_NO_ERROR : GLenum := 0

/-- Error code `GL_OUT_OF_MEMORY`. -/
def GL_OUT_OF_MEMORY : GLenum := 0x0505

namespace gl

/-- The box `gl::Box`: an origin and a size on three axes, all `int`. -/
structure Box where
  x : Int
  y : Int
  z : Int
  width : Int
  height : Int
  depth : Int
deriving DecidableEq, Repr

/-- The extents `gl::Extents`: a size on three axes, all `int`. -/
structure Extents where
  width : Int
  height : Int
  depth : Int
deriving DecidableEq, Repr

/-- The result `gl::Error` of a call: a GL error code (the message is dropped). -/
structure Error where
  code : GLenum
deriving DecidableEq, Repr

/-- The value `gl::NoError()`. -/
def NoError : Error := { code := GL_NO_ERROR }

/-- The test `gl::Error::isError`. -/
def Error.isError (e : Error) : Bool := e.code != GL_NO_ERROR

end gl

namespace rx

/-- Identity of a native object created by the device. -/
abbrev Handle := Nat

/-- Number of values of an `unsigned int`. -/
def UINT_RANGE : Nat := 2 ^ 32

/-- The conversion `static_cast<unsigned int>(i)` of an `int`. -/
def toUnsigned (i : Int) : Nat := (i % (UINT_RANGE : Int)).toNat

/-- Modelled from the spec: the declaration of `CopyShaderParams`
(PixelTransfer11.h) is missing. It is the constant block handed to the vertex
shader; the fields are those the source assigns: four `unsigned int` counters,
two `float` pairs, and `FirstSlice`, the slice index taken directly from the
region's depth origin. -/
structure CopyShaderParams where
  FirstPixelOffset : Nat
  PixelsPerRow : Nat
  RowStride : Nat
  RowsPerSlice : Nat
  PositionOffset : ℚ × ℚ
  PositionScale : ℚ × ℚ
  FirstSlice : Int
deriving DecidableEq

/-- The value `StructZero` leaves in a `CopyShaderParams`. -/
def CopyShaderParams.zero : CopyShaderParams :=
  { FirstPixelOffset := 0, PixelsPerRow := 0, RowStride := 0, RowsPerSlice := 0,
    PositionOffset := (0, 0), PositionScale := (0, 0), FirstSlice := 0 }

/-! ## `setBufferToTextureCopyParams` -/

/-- Modelled from the spec: `roundUp` (common/mathutil.h) is missing; it rounds
`value` up to a multiple of `alignment`. The model is the usual computation on
`unsigned int`: add `alignment - 1`, wrapping at `2 ^ 32`, and drop the
remainder. -/
def roundUp (value alignment : Nat) : Nat :=
  let temp := (value + alignment - 1) % UINT_RANGE
  temp - temp % alignment

/-- The local `alignmentPixels` of `setBufferToTextureCopyParams`:
`alignmentBytes <= bytesPerPixel ? 1 : alignmentBytes / bytesPerPixel`. -/
def alignmentPixels (alignmentBytes bytesPerPixel : Nat) : Nat :=
  if alignmentBytes ≤ bytesPerPixel then 1 else alignmentBytes / bytesPerPixel

/-- The function `PixelTransfer11::setBufferToTextureCopyParams`. The unpack state
enters through its two fields read here (`alignment`, `rowLength`, both `GLint`)
and the format table through `bytesPerPixel`, the `pixelBytes` of the sized
internal format. The output structure is zeroed first, so its prior contents do
not enter. -/
def setBufferToTextureCopyParams (destArea : gl.Box) (destSize : gl.Extents)
    (bytesPerPixel : Nat) (alignment rowLength : Int) (offset : Nat) : CopyShaderParams :=
  let texelCenterX : ℚ := (1 / 2) / ((destSize.width - 1 : Int) : ℚ)
  let texelCenterY : ℚ := (1 / 2) / ((destSize.height - 1 : Int) : ℚ)
  let alignmentBytes := toUnsigned alignment
  let alignmentPx := alignmentPixels alignmentBytes bytesPerPixel
  let pixelsPerRow := toUnsigned (if rowLength > 0 then rowLength else destArea.width)
  { FirstPixelOffset := offset / bytesPerPixel
    PixelsPerRow := pixelsPerRow
    RowStride := roundUp pixelsPerRow alignmentPx
    RowsPerSlice := toUnsigned destArea.height
    PositionOffset :=
      (texelCenterX + ((destArea.x : ℚ) / (destSize.width : ℚ)) * 2 - 1,
       texelCenterY
        + (((destSize.height - destArea.y - 1 : Int) : ℚ) / (destSize.height : ℚ)) * 2 - 1)
    PositionScale := (2 / (destSize.width : ℚ), (-2) / (destSize.height : ℚ))
    FirstSlice := destArea.z }

/-- The number `s` is the least multiple of `m` that is at least `p`. -/
def IsLeastMultipleGE (m p s : Nat) : Prop :=
  m ∣ s ∧ p ≤ s ∧ ∀ k, m ∣ k → p ≤ k → s ≤ k

/-- The macro `StructZero` on a `CopyShaderParams`: whatever it held, it is zero
afterwards. -/
def StructZero (_parameters : CopyShaderParams) : CopyShaderParams := CopyShaderParams.zero

/-- The function `setBufferToTextureCopyParams` statement by statement, with the
prior contents of the out-parameter `parametersOut` explicit. -/
def setBufferToTextureCopyParamsOut (parametersOut : CopyShaderParams) (destArea : gl.Box)
    (destSize : gl.Extents) (bytesPerPixel : Nat) (alignment rowLength : Int) (offset : Nat) :
    CopyShaderParams :=
  let p0 := StructZero parametersOut
  let texelCenterX : ℚ := (1 / 2) / ((destSize.width - 1 : Int) : ℚ)
  let texelCenterY : ℚ := (1 / 2) / ((destSize.height - 1 : Int) : ℚ)
  let alignmentBytes := toUnsigned alignment
  let alignmentPx := alignmentPixels alignmentBytes bytesPerPixel
  let p1 := { p0 with FirstPixelOffset := offset / bytesPerPixel }
  let p2 := { p1 with
    PixelsPerRow := toUnsigned (if rowLength > 0 then rowLength else destArea.width) }
  let p3 := { p2 with RowStride := roundUp p2.PixelsPerRow alignmentPx }
  let p4 := { p3 with RowsPerSlice := toUnsigned destArea.height }
  let p5 := { p4 with PositionOffset :=
    (texelCenterX + ((destArea.x : ℚ) / (destSize.width : ℚ)) * 2 - 1, p4.PositionOffset.2) }
  let p6 := { p5 with PositionOffset :=
    (p5.PositionOffset.1,
      texelCenterY
        + (((destSize.height - destArea.y - 1 : Int) : ℚ) / (destSize.height : ℚ)) * 2 - 1) }
  let p7 := { p6 with PositionScale := (2 / (destSize.width : ℚ), p6.PositionScale.2) }
  let p8 := { p7 with PositionScale := (p7.PositionScale.1, (-2) / (destSize.height : ℚ)) }
  { p8 with FirstSlice := destArea.z }

/-- The byte row pitch of the unpack rules, in the words of the specification:
the least multiple of the alignment `a` that is at least `p * b`, the bytes of
a row of `p` pixels of `b` bytes each. It is computed on unbounded naturals, as
the quotient of `p * b + a - 1` by `a`, times `a`. -/
def unpackRowPitch (a b p : Nat) : Nat := (p * b + a - 1) / a * a

/-- The divisors of the divisions that `setBufferToTextureCopyParams` evaluates,
in the order of the source: `destSize.width - 1` and `destSize.height - 1` for
the two half-texel offsets (an `int` converted to `float` is zero exactly when
the `int` is, so the value is taken before the conversion), `bytesPerPixel` for
`alignmentBytes / bytesPerPixel` (evaluated only when
`alignmentBytes > bytesPerPixel`) and for `offset / bytesPerPixel`,
`alignmentPixels` inside `roundUp`, then `destSize.width` and `destSize.height`
for the position offset and again for the position scale. -/
def setBufferToTextureCopyParamsDivisors (destSize : gl.Extents) (bytesPerPixel : Nat)
    (alignment : Int) : List Int :=
  let alignmentBytes := toUnsigned alignment
  [destSize.width - 1, destSize.height - 1]
    ++ (if alignmentBytes ≤ bytesPerPixel then [] else [(bytesPerPixel : Int)])
    ++ [(bytesPerPixel : Int), (alignmentPixels alignmentBytes bytesPerPixel : Int),
        destSize.width, destSize.height, destSize.width, destSize.height]

/-! ## The device -/

/-- A creation descriptor handed to the device allocator. The three descriptors
that `loadResources` fills in are fixed values and are named after their local
variable; a blend descriptor is identified by its contents up to structural
equality. No step of the code here reads a descriptor field. -/
inductive Desc
  | rasterDesc
  | depthStencilDesc
  | constantBufferDesc
  | blendDesc (contents : Nat)
deriving DecidableEq, Repr

/-- The precompiled shader blobs included by `PixelTransfer11.cpp`. -/
inductive ShaderBlob
  | g_VS_BufferToTexture
  | g_GS_BufferToTexture
  | g_PS_BufferToTexture_4F
  | g_PS_BufferToTexture_4I
  | g_PS_BufferToTexture_4UI
deriving DecidableEq, Repr

/-- The tag `ResourceType` of a native resource kind (the tags the source names). -/
inductive ResourceType
  | BlendState
  | Texture2D
  | Texture3D
  | Last
deriving DecidableEq, Repr

/-- A call made on the device, the device context, the state manager, a resource
manager or a native object, with the arguments that matter here. -/
inductive Call
  | allocateResource (desc : Desc) (result : Option Handle)
  | CreateVertexShader (byteCode : ShaderBlob) (result : Option Handle)
  | CreateGeometryShader (byteCode : ShaderBlob) (result : Option Handle)
  | CreatePixelShader (byteCode : ShaderBlob) (result : Option Handle)
  | Release (object : Handle)
  | onReleaseResource (manager : Handle) (resourceType : ResourceType) (object : Handle)
  | VSSetShader (shader : Option Handle)
  | GSSetShader (shader : Option Handle)
  | PSSetShader (shader : Option Handle)
  | setShaderResource (slot : Nat) (srv : Option Handle)
  | IASetInputLayout (layout : Option Handle)
  | IASetPrimitiveTopologyPointList
  | IASetVertexBuffers (slot : Nat) (buffer : Option Handle)
  | OMSetBlendState (state : Option Handle)
  | OMSetDepthStencilState (state : Option Handle)
  | RSSetState (state : Option Handle)
  | setOneTimeRenderTarget (rtv : Option Handle)
  | Map (buffer : Option Handle) (succeeded : Bool)
  | memcpy (buffer : Option Handle) (value : CopyShaderParams)
  | Unmap (buffer : Option Handle)
  | VSSetConstantBuffers (slot : Nat) (buffer : Option Handle)
  | RSSetViewports (width height : ℚ)
  | Draw (vertexCount : Nat)
  | markAllStateDirty
deriving DecidableEq

/-- The renderer with its device. `outcomes` lists, in order, whether each
fallible native call still to come succeeds (a call made after the list is used
up succeeds); `nextHandle` is the identity the next created object gets; `log`
is every call made so far, oldest first. -/
structure Renderer11 where
  outcomes : List Bool
  nextHandle : Handle
  log : List Call
deriving DecidableEq

/-- Record one call in the log. -/
def Renderer11.emit (r : Renderer11) (c : Call) : Renderer11 :=
  { r with log := r.log ++ [c] }

/-- Record several calls in the log, in order. -/
def Renderer11.emitAll (r : Renderer11) (cs : List Call) : Renderer11 :=
  { r with log := r.log ++ cs }

/-- Take the outcome of the next fallible native call. -/
def Renderer11.nextOutcome (r : Renderer11) : Bool × Renderer11 :=
  match r.outcomes with
  | [] => (true, r)
  | b :: rest => (b, { r with outcomes := rest })

/-- A native creation call: on success a fresh object, on failure `nullptr`. -/
def Renderer11.create (r : Renderer11) : Option Handle × Renderer11 :=
  let o := r.nextOutcome
  if o.1 then (some o.2.nextHandle, { o.2 with nextHandle := o.2.nextHandle + 1 })
  else (none, o.2)

/-- The result of a call on an object of type `σ`: the returned `gl::Error`, the
renderer after the call, and the object after the call. -/
structure Step (σ : Type) where
  result : gl.Error
  renderer : Renderer11
  self : σ

/-- Modelled from the spec: `Resource11<T>` (ResourceManager11.h) is missing. It
is the owned handle of one native object, empty when it holds `nullptr`; its own
release of the object it holds is not recorded in the log. -/
structure Resource11 where
  object : Option Handle
deriving DecidableEq, Repr

/-- The test `Resource11::valid`. -/
def Resource11.valid (x : Resource11) : Bool := x.object.isSome

/-- The accessor `Resource11::get`. -/
def Resource11.get (x : Resource11) : Option Handle := x.object

/-- The method `Resource11::reset`. -/
def Resource11.reset (_x : Resource11) : Resource11 := { object := none }

/-- Modelled from the spec: `Renderer11::allocateResource` (Renderer11.h,
ResourceManager11.cpp) is missing. It is the device allocator
`allocate(descriptor) -> NativeObject | AllocationError`: on success the new
object is stored in `resourceOut`; on failure an out-of-memory error is returned
and nothing is stored. -/
def Renderer11.allocateResource (r : Renderer11) (desc : Desc) (resourceOut : Resource11) :
    Step Resource11 :=
  let c := r.create
  match c.1 with
  | some h =>
    { result := gl.NoError
      renderer := c.2.emit (Call.allocateResource desc (some h))
      self := { object := some h } }
  | none =>
    { result := { code := GL_OUT_OF_MEMORY }
      renderer := c.2.emit (Call.allocateResource desc none)
      self := resourceOut }

/-- The function `d3d11::CompileVS`: the created shader, or `nullptr` when
`CreateVertexShader` fails. -/
def d3d11.CompileVS (r : Renderer11) (byteCode : ShaderBlob) : Option Handle × Renderer11 :=
  let c := r.create
  (c.1, c.2.emit (Call.CreateVertexShader byteCode c.1))

/-- The function `d3d11::CompileGS`: the created shader, or `nullptr` when
`CreateGeometryShader` fails. -/
def d3d11.CompileGS (r : Renderer11) (byteCode : ShaderBlob) : Option Handle × Renderer11 :=
  let c := r.create
  (c.1, c.2.emit (Call.CreateGeometryShader byteCode c.1))

/-- The function `d3d11::CompilePS`: the created shader, or `nullptr` when
`CreatePixelShader` fails. -/
def d3d11.CompilePS (r : Renderer11) (byteCode : ShaderBlob) : Option Handle × Renderer11 :=
  let c := r.create
  (c.1, c.2.emit (Call.CreatePixelShader byteCode c.1))

/-- The function `d3d11::SetBufferData`: map the buffer and, when the map
succeeds, copy the value in and unmap. -/
def d3d11.SetBufferData (r : Renderer11) (constantBuffer : Option Handle)
    (value : CopyShaderParams) : Renderer11 :=
  let m := r.nextOutcome
  let r1 := m.2.emit (Call.Map constantBuffer m.1)
  if m.1 then r1.emitAll [Call.memcpy constantBuffer value, Call.Unmap constantBuffer]
  else r1

/-- The function `SafeRelease` on a raw pointer: release the object if there is
one and null the pointer. -/
def SafeRelease (r : Renderer11) (p : Option Handle) : Renderer11 × Option Handle :=
  match p with
  | some h => (r.emit (Call.Release h), none)
  | none => (r, none)

/-! ## `LazyResource2` -/

/-- The class `LazyResource2<ResourceT>`: a holder of one lazily allocated object. -/
structure LazyResource2 where
  mResource : Resource11
deriving DecidableEq, Repr

/-- The constructor `LazyResource2()`: an empty holder. -/
def LazyResource2.new : LazyResource2 := { mResource := { object := none } }

/-- The method `LazyResource2::reset`. -/
def LazyResource2.reset (l : LazyResource2) : LazyResource2 :=
  { mResource := l.mResource.reset }

/-- The method `LazyResource2::get`. -/
def LazyResource2.get (l : LazyResource2) : Option Handle := l.mResource.get

/-- The method `LazyResource2::resolveImpl`: allocate only while the holder is
empty; `ANGLE_TRY` returns the allocator's error to the caller. The debug name
only labels the object and is dropped. A `LazyBlendState` resolves through this
method with the descriptor it stores. -/
def LazyResource2.resolveImpl (l : LazyResource2) (r : Renderer11) (desc : Desc) :
    Step LazyResource2 :=
  if !l.mResource.valid then
    let a := r.allocateResource desc l.mResource
    if a.result.isError then
      { result := a.result, renderer := a.renderer, self := { mResource := a.self } }
    else
      { result := gl.NoError, renderer := a.renderer, self := { mResource := a.self } }
  else
    { result := gl.NoError, renderer := r, self := l }

/-- Resolve `n` more times with the same descriptor, collecting each returned
error and the value of `get()` after each call. -/
def LazyResource2.resolveMany (l : LazyResource2) (r : Renderer11) (desc : Desc) :
    Nat → List (gl.Error × Option Handle) × Renderer11 × LazyResource2
  | 0 => ([], r, l)
  | n + 1 =>
    let s := l.resolveImpl r desc
    let rest := LazyResource2.resolveMany s.self s.renderer desc n
    ((s.result, s.self.get) :: rest.1, rest.2)

/-- Number of calls to the device allocator in a log. -/
def allocationCalls (log : List Call) : Nat :=
  (log.filter (fun c => match c with
    | Call.allocateResource _ _ => true
    | _ => false)).length

/-! ## `GenericData` and shared texture handles -/

/-- The record `GenericData` shared by the handles of one texture. -/
structure GenericData where
  resourceType : ResourceType
  object : Option Handle
  manager : Option Handle
deriving DecidableEq, Repr

/-- The destructor `~GenericData`: when an object is held, notify the manager if
there is one, then release the object. -/
def GenericData.destructor (d : GenericData) (r : Renderer11) : Renderer11 × GenericData :=
  match d.object with
  | some obj =>
    match d.manager with
    | some m =>
      ((r.emit (Call.onReleaseResource m d.resourceType obj)).emit (Call.Release obj),
        { d with manager := none, object := none })
    | none => (r.emit (Call.Release obj), { d with object := none })
  | none => (r, d)

/-- Modelled from the spec: the copy constructor and destructor of
`TextureHelper11` (renderer11_utils.cpp) and `Resource11Base` are missing. The
handles of one texture share one `GenericData` through a `std::shared_ptr`:
copying increments a shared reference count, and destruction of the last handle
destroys the record. `useCount` is the number of live handles. -/
structure SharedData where
  data : GenericData
  useCount : Nat
deriving DecidableEq, Repr

/-- Copy one handle: one more owner of the same record. -/
def SharedData.copy (s : SharedData) : SharedData :=
  { s with useCount := s.useCount + 1 }

/-- Destroy one handle: the last owner runs `~GenericData`. -/
def SharedData.destroyHandle (s : SharedData) (r : Renderer11) : Renderer11 × SharedData :=
  if s.useCount = 1 then
    let d := s.data.destructor r
    (d.1, { data := d.2, useCount := 0 })
  else
    (r, { s with useCount := s.useCount - 1 })

/-- Copy a handle `n` times. -/
def SharedData.copyN (s : SharedData) : Nat → SharedData
  | 0 => s
  | n + 1 => SharedData.copyN s.copy n

/-- Destroy `n` handles, one after the other. -/
def SharedData.destroyN (s : SharedData) (r : Renderer11) : Nat → Renderer11 × SharedData
  | 0 => (r, s)
  | n + 1 =>
    let d := s.destroyHandle r
    SharedData.destroyN d.2 d.1 n

/-! ## `PixelTransfer11` -/

/-- The map `std::map<GLenum, ID3D11PixelShader *>`: entries in increasing key
order, at most one per key. -/
abbrev ShaderMap := List (GLenum × Option Handle)

/-- The assignment `map[key] = value`: overwrite the entry of `key`, or insert one
at its place in key order. -/
def ShaderMap.assign : ShaderMap → GLenum → Option Handle → ShaderMap
  | [], key, value => [(key, value)]
  | (k, v) :: rest, key, value =>
    if key < k then (key, value) :: (k, v) :: rest
    else if key = k then (key, value) :: rest
    else (k, v) :: ShaderMap.assign rest key value

/-- The lookup `map.find(key)`: `none` stands for `map.end()`. -/
def ShaderMap.find (m : ShaderMap) (key : GLenum) : Option (Option Handle) :=
  (List.find? (fun kv => kv.1 == key) m).map (fun kv => kv.2)

/-- The state of a `PixelTransfer11` engine (its renderer is passed to each
method). -/
structure PixelTransfer11 where
  mResourcesLoaded : Bool
  mBufferToTexturePSMap : ShaderMap
  mBufferToTextureVS : Option Handle
  mBufferToTextureGS : Option Handle
  mParamsConstantBuffer : Resource11
  mParamsData : CopyShaderParams
  mCopyRasterizerState : Resource11
  mCopyDepthStencilState : Resource11
deriving DecidableEq

/-- The constructor `PixelTransfer11::PixelTransfer11`. The member `mParamsData`
is not initialised by it: `uninitialised` is whatever the storage holds. -/
def PixelTransfer11.new (uninitialised : CopyShaderParams) : PixelTransfer11 :=
  { mResourcesLoaded := false
    mBufferToTexturePSMap := []
    mBufferToTextureVS := none
    mBufferToTextureGS := none
    mParamsConstantBuffer := { object := none }
    mParamsData := uninitialised
    mCopyRasterizerState := { object := none }
    mCopyDepthStencilState := { object := none } }

/-- The method `PixelTransfer11::buildShaderMap`: create the three pixel shaders,
store each under its component type, then fail if any entry of the map is null. -/
def PixelTransfer11.buildShaderMap (e : PixelTransfer11) (r : Renderer11) :
    Step PixelTransfer11 :=
  let f := d3d11.CompilePS r ShaderBlob.g_PS_BufferToTexture_4F
  let m1 := ShaderMap.assign e.mBufferToTexturePSMap GL_FLOAT f.1
  let i := d3d11.CompilePS f.2 ShaderBlob.g_PS_BufferToTexture_4I
  let m2 := ShaderMap.assign m1 GL_INT i.1
  let u := d3d11.CompilePS i.2 ShaderBlob.g_PS_BufferToTexture_4UI
  let m3 := ShaderMap.assign m2 GL_UNSIGNED_INT u.1
  let e1 := { e with mBufferToTexturePSMap := m3 }
  if m3.any (fun kv => kv.2.isNone) then
    { result := { code := GL_OUT_OF_MEMORY }, renderer := u.2, self := e1 }
  else
    { result := gl.NoError, renderer := u.2, self := e1 }

/-- The method `PixelTransfer11::loadResources`. Each `ANGLE_TRY` returns the
allocator's error to the caller; the debug name of the constant buffer only
labels the object and is dropped. -/
def PixelTransfer11.loadResources (e : PixelTransfer11) (r : Renderer11) :
    Step PixelTransfer11 :=
  if e.mResourcesLoaded then
    { result := gl.NoError, renderer := r, self := e }
  else
    let a1 := r.allocateResource Desc.rasterDesc e.mCopyRasterizerState
    let e1 := { e with mCopyRasterizerState := a1.self }
    if a1.result.isError then
      { result := a1.result, renderer := a1.renderer, self := e1 }
    else
    let a2 := a1.renderer.allocateResource Desc.depthStencilDesc e1.mCopyDepthStencilState
    let e2 := { e1 with mCopyDepthStencilState := a2.self }
    if a2.result.isError then
      { result := a2.result, renderer := a2.renderer, self := e2 }
    else
    let a3 := a2.renderer.allocateResource Desc.constantBufferDesc e2.mParamsConstantBuffer
    let e3 := { e2 with mParamsConstantBuffer := a3.self }
    if a3.result.isError then
      { result := a3.result, renderer := a3.renderer, self := e3 }
    else
    let vs := d3d11.CompileVS a3.renderer ShaderBlob.g_VS_BufferToTexture
    let e4 := { e3 with mBufferToTextureVS := vs.1 }
    if vs.1.isNone then
      { result := { code := GL_OUT_OF_MEMORY }, renderer := vs.2, self := e4 }
    else
    let gs := d3d11.CompileGS vs.2 ShaderBlob.g_GS_BufferToTexture
    let e5 := { e4 with mBufferToTextureGS := gs.1 }
    if gs.1.isNone then
      { result := { code := GL_OUT_OF_MEMORY }, renderer := gs.2, self := e5 }
    else
    let b := e5.buildShaderMap gs.2
    if b.result.isError then
      b
    else
      { result := gl.NoError
        renderer := b.renderer
        self := { b.self with mParamsData := CopyShaderParams.zero, mResourcesLoaded := true } }

/-- The destructor `PixelTransfer11::~PixelTransfer11`: release every pixel
shader of the map, clear the map, release the vertex and geometry shaders. -/
def PixelTransfer11.destructor (e : PixelTransfer11) (r : Renderer11) :
    Renderer11 × PixelTransfer11 :=
  let r1 := e.mBufferToTexturePSMap.foldl (fun acc kv => (SafeRelease acc kv.2).1) r
  let v := SafeRelease r1 e.mBufferToTextureVS
  let g := SafeRelease v.1 e.mBufferToTextureGS
  (g.1, { e with mBufferToTexturePSMap := [], mBufferToTextureVS := v.2,
                 mBufferToTextureGS := g.2 })

/-- The format tables read by the engine, which are not part of these sources:
`componentType f` and `pixelBytes f` are the fields of
`gl::GetSizedInternalFormatInfo(f)`, `unsizedFormat f` is `gl::GetUnsizedFormat(f)`,
`sizedInternalFormat f t` is `gl::GetInternalFormatInfo(f, t).sizedInternalFormat`
and `srvFormat f` is the `srvFormat` of `d3d11::Format::Get(f, caps)`. -/
structure FormatTables where
  componentType : GLenum → GLenum
  pixelBytes : GLenum → Nat
  unsizedFormat : GLenum → GLenum
  sizedInternalFormat : GLenum → GLenum → GLenum
  srvFormat : GLenum → Nat

/-- The value `gl::ErrorOrResult<ID3D11ShaderResourceView *>`. -/
structure ErrorOrResult where
  error : gl.Error
  result : Option Handle
deriving DecidableEq, Repr

/-- The source buffer storage `Buffer11`, through the one method called on it:
`getSRV(srvFormat)`. -/
structure Buffer11 where
  getSRV : Nat → ErrorOrResult

/-- The fields of `gl::PixelUnpackState` read by the engine. -/
structure PixelUnpackState where
  alignment : Int
  rowLength : Int
  pixelBuffer : Buffer11

/-- The destination `RenderTarget11`: its extents and its render target view. -/
structure RenderTarget11 where
  getExtents : gl.Extents
  getRenderTargetView : Option Handle
deriving DecidableEq, Repr

/-- The method `PixelTransfer11::findBufferToTexturePS`. -/
def PixelTransfer11.findBufferToTexturePS (e : PixelTransfer11) (tables : FormatTables)
    (internalFormat : GLenum) : Option Handle :=
  let componentType := tables.componentType internalFormat
  let componentType :=
    if componentType = GL_SIGNED_NORMALIZED ∨ componentType = GL_UNSIGNED_NORMALIZED then GL_FLOAT
    else componentType
  match ShaderMap.find e.mBufferToTexturePSMap componentType with
  | none => none
  | some shader => shader

/-- The method `PixelTransfer11::copyBufferToTexture`. The product of the region
sizes is an `int` product converted to `UINT`: its value modulo `2 ^ 32`. -/
def PixelTransfer11.copyBufferToTexture (e : PixelTransfer11) (r : Renderer11)
    (tables : FormatTables) (unpack : PixelUnpackState) (offset : Nat)
    (destRenderTarget : RenderTarget11) (destinationFormat sourcePixelsType : GLenum)
    (destArea : gl.Box) : Step PixelTransfer11 :=
  let l := e.loadResources r
  if l.result.isError then
    l
  else
    let destSize := destRenderTarget.getExtents
    let pixelShader := l.self.findBufferToTexturePS tables destinationFormat
    let unsizedFormat := tables.unsizedFormat destinationFormat
    let sourceSizedFormat := tables.sizedInternalFormat unsizedFormat sourcePixelsType
    let srvFormat := tables.srvFormat sourceSizedFormat
    let srv := unpack.pixelBuffer.getSRV srvFormat
    if srv.error.isError then
      { result := srv.error, renderer := l.renderer, self := l.self }
    else
    let bufferSRV := srv.result
    let textureRTV := destRenderTarget.getRenderTargetView
    let shaderParams := setBufferToTextureCopyParams destArea destSize
      (tables.pixelBytes sourceSizedFormat) unpack.alignment unpack.rowLength offset
    let geometryShader := if destSize.depth > 1 then l.self.mBufferToTextureGS else none
    let r1 := l.renderer.emitAll
      [ Call.VSSetShader l.self.mBufferToTextureVS,
        Call.GSSetShader geometryShader,
        Call.PSSetShader pixelShader,
        Call.setShaderResource 0 bufferSRV,
        Call.IASetInputLayout none,
        Call.IASetPrimitiveTopologyPointList,
        Call.IASetVertexBuffers 0 none,
        Call.OMSetBlendState none,
        Call.OMSetDepthStencilState l.self.mCopyDepthStencilState.get,
        Call.RSSetState l.self.mCopyRasterizerState.get,
        Call.setOneTimeRenderTarget textureRTV ]
    let r2 :=
      if l.self.mParamsData ≠ shaderParams then
        d3d11.SetBufferData r1 l.self.mParamsConstantBuffer.get shaderParams
      else r1
    let e2 :=
      if l.self.mParamsData ≠ shaderParams then { l.self with mParamsData := shaderParams }
      else l.self
    let paramsBuffer := l.self.mParamsConstantBuffer.get
    let numPixels := toUnsigned (destArea.width * destArea.height * destArea.depth)
    let r3 := r2.emitAll
      [ Call.VSSetConstantBuffers 0 paramsBuffer,
        Call.RSSetViewports (destSize.width : ℚ) (destSize.height : ℚ),
        Call.Draw numPixels,
        Call.setShaderResource 0 none,
        Call.VSSetConstantBuffers 0 none,
        Call.markAllStateDirty ]
    { result := gl.NoError, renderer := r3, self := e2 }

/-! ## Locals of `copyBufferToTexture` and observations on the log -/

/-- The sized format of the source pixels in `copyBufferToTexture`: the local
`sourceglFormatInfo.sizedInternalFormat`. -/
def sourceSizedFormat (tables : FormatTables) (destinationFormat sourcePixelsType : GLenum) :
    GLenum :=
  tables.sizedInternalFormat (tables.unsizedFormat destinationFormat) sourcePixelsType

/-- The result of `getSRV` on the source buffer in `copyBufferToTexture`. -/
def sourceView (tables : FormatTables) (unpack : PixelUnpackState)
    (destinationFormat sourcePixelsType : GLenum) : ErrorOrResult :=
  unpack.pixelBuffer.getSRV
    (tables.srvFormat (sourceSizedFormat tables destinationFormat sourcePixelsType))

/-- The local `shaderParams` of `copyBufferToTexture`. -/
def copyParams (tables : FormatTables) (unpack : PixelUnpackState) (offset : Nat)
    (destRenderTarget : RenderTarget11) (destinationFormat sourcePixelsType : GLenum)
    (destArea : gl.Box) : CopyShaderParams :=
  setBufferToTextureCopyParams destArea destRenderTarget.getExtents
    (tables.pixelBytes (sourceSizedFormat tables destinationFormat sourcePixelsType))
    unpack.alignment unpack.rowLength offset

/-- The calls `d3d11::SetBufferData` makes on renderer `r`. -/
def uploadCalls (r : Renderer11) (constantBuffer : Option Handle) (value : CopyShaderParams) :
    List Call :=
  Call.Map constantBuffer r.nextOutcome.1 ::
    (if r.nextOutcome.1 then [Call.memcpy constantBuffer value, Call.Unmap constantBuffer]
     else [])

/-- The region lies within the extents on all three axes: the condition of the
`ASSERT` at the head of `copyBufferToTexture`. -/
def regionWithin (destArea : gl.Box) (destSize : gl.Extents) : Prop :=
  destArea.x ≥ 0 ∧ destArea.x + destArea.width ≤ destSize.width ∧
  destArea.y ≥ 0 ∧ destArea.y + destArea.height ≤ destSize.height ∧
  destArea.z ≥ 0 ∧ destArea.z + destArea.depth ≤ destSize.depth

instance (destArea : gl.Box) (destSize : gl.Extents) :
    Decidable (regionWithin destArea destSize) := by
  unfold regionWithin; infer_instance

/-- The calls made since the renderer was in state `before`. -/
def callsSince (before after : Renderer11) : List Call :=
  after.log.drop before.log.length

/-- The vertex counts of the draws in a list of calls. -/
def draws (calls : List Call) : List Nat :=
  calls.filterMap (fun c => match c with
    | Call.Draw n => some n
    | _ => none)

/-- The shaders bound to the geometry stage in a list of calls. -/
def geometryBindings (calls : List Call) : List (Option Handle) :=
  calls.filterMap (fun c => match c with
    | Call.GSSetShader s => some s
    | _ => none)

/-- A native creation call (allocation or shader creation), with its result. -/
def creationResult (c : Call) : Option (Option Handle) :=
  match c with
  | Call.allocateResource _ res => some res
  | Call.CreateVertexShader _ res => some res
  | Call.CreateGeometryShader _ res => some res
  | Call.CreatePixelShader _ res => some res
  | _ => none

/-- The results of the creation calls in a list of calls. -/
def creations (calls : List Call) : List (Option Handle) :=
  calls.filterMap creationResult

/-- Number of times an object is released in a list of calls. -/
def releaseCount (calls : List Call) (h : Handle) : Nat :=
  calls.count (Call.Release h)

/-- Every creation call of the list succeeded, and there are `n` of them. -/
def allCreated (n : Nat) (calls : List Call) : Prop :=
  (creations calls).length = n ∧ (creations calls).all (fun x => x.isSome) = true

/-- Some creation call of the list failed (returned null). -/
def someCreationFailed (calls : List Call) : Prop :=
  none ∈ creations calls

instance (n : Nat) (calls : List Call) : Decidable (allCreated n calls) := by
  unfold allCreated; infer_instance

instance (calls : List Call) : Decidable (someCreationFailed calls) := by
  unfold someCreationFailed; infer_instance

/-- Between renderer states `before` and `after` only creation calls were made:
the log grew by calls that are all allocations or shader creations. -/
def CreatesOnly (before after : Renderer11) : Prop :=
  ∃ cs, after.log = before.log ++ cs ∧ cs.all (fun c => (creationResult c).isSome) = true

/-- Number of uploads attempted in a list of calls: the calls of `Map`. -/
def mapCalls (calls : List Call) : Nat :=
  (calls.filter (fun c => match c with
    | Call.Map _ _ => true
    | _ => false)).length

/-- The values written to a buffer by the calls of a list, oldest first: the
values of the `memcpy` calls into it. -/
def writes (calls : List Call) (buffer : Option Handle) : List CopyShaderParams :=
  calls.filterMap (fun c => match c with
    | Call.memcpy b v => if b = buffer then some v else none
    | _ => none)

/-- The contents last written to a buffer by the calls of a list, `none` if the
list writes nothing to it. -/
def lastWritten (calls : List Call) (buffer : Option Handle) : Option CopyShaderParams :=
  (writes calls buffer).getLast?

/-- The source view bound to a pixel-stage slot after the calls of a list:
`none` if the list binds nothing there, `some none` if the last binding is null. -/
def boundShaderResource (calls : List Call) (slot : Nat) : Option (Option Handle) :=
  (calls.filterMap (fun c => match c with
    | Call.setShaderResource s v => if s = slot then some v else none
    | _ => none)).getLast?

/-- The constant buffer bound to a vertex-stage slot after the calls of a list:
`none` if the list binds nothing there, `some none` if the last binding is null. -/
def boundVSConstantBuffer (calls : List Call) (slot : Nat) : Option (Option Handle) :=
  (calls.filterMap (fun c => match c with
    | Call.VSSetConstantBuffers s v => if s = slot then some v else none
    | _ => none)).getLast?

/-! ## Engine states -/

/-- The states of an engine that the code can produce: a constructed engine, and
the engine after any call of `loadResources` or `copyBufferToTexture`. -/
inductive PixelTransfer11.Reachable : PixelTransfer11 → Prop
  | new (uninitialised : CopyShaderParams) :
      PixelTransfer11.Reachable (PixelTransfer11.new uninitialised)
  | loadResources (e : PixelTransfer11) (r : Renderer11) :
      PixelTransfer11.Reachable e → PixelTransfer11.Reachable (e.loadResources r).self
  | copyBufferToTexture (e : PixelTransfer11) (r : Renderer11) (tables : FormatTables)
      (unpack : PixelUnpackState) (offset : Nat) (destRenderTarget : RenderTarget11)
      (destinationFormat sourcePixelsType : GLenum) (destArea : gl.Box) :
      PixelTransfer11.Reachable e →
      PixelTransfer11.Reachable (e.copyBufferToTexture r tables unpack offset destRenderTarget
        destinationFormat sourcePixelsType destArea).self

/-- The states an engine can be in after state `e0`: `e0` itself, and the engine
after any later call of `loadResources` or `copyBufferToTexture`. -/
inductive PixelTransfer11.Later (e0 : PixelTransfer11) : PixelTransfer11 → Prop
  | now : PixelTransfer11.Later e0 e0
  | loadResources (e : PixelTransfer11) (r : Renderer11) :
      PixelTransfer11.Later e0 e → PixelTransfer11.Later e0 (e.loadResources r).self
  | copyBufferToTexture (e : PixelTransfer11) (r : Renderer11) (tables : FormatTables)
      (unpack : PixelUnpackState) (offset : Nat) (destRenderTarget : RenderTarget11)
      (destinationFormat sourcePixelsType : GLenum) (destArea : gl.Box) :
      PixelTransfer11.Later e0 e →
      PixelTransfer11.Later e0 (e.copyBufferToTexture r tables unpack offset destRenderTarget
        destinationFormat sourcePixelsType destArea).self

/-- The keys of the pixel shader map once `buildShaderMap` has run. -/
def shaderMapKeys : List GLenum := [GL_INT, GL_UNSIGNED_INT, GL_FLOAT]

/-- Representation invariant of the engine: the pixel shader map is empty or has
exactly the three component type keys, and once the resources are loaded every
shader and every state object is present. -/
def PixelTransfer11.Inv (e : PixelTransfer11) : Prop :=
  (e.mBufferToTexturePSMap = [] ∨ e.mBufferToTexturePSMap.map Prod.fst = shaderMapKeys) ∧
  (e.mResourcesLoaded = true →
    e.mBufferToTextureVS.isSome = true ∧ e.mBufferToTextureGS.isSome = true ∧
    e.mBufferToTexturePSMap.map Prod.fst = shaderMapKeys ∧
    e.mBufferToTexturePSMap.all (fun kv => kv.2.isSome) = true ∧
    e.mCopyRasterizerState.valid = true ∧ e.mCopyDepthStencilState.valid = true ∧
    e.mParamsConstantBuffer.valid = true)

/-- Call `loadResources` `n` times in a row, collecting the returned errors. -/
def PixelTransfer11.loadResourcesN (e : PixelTransfer11) (r : Renderer11) :
    Nat → List gl.Error × Renderer11 × PixelTransfer11
  | 0 => ([], r, e)
  | n + 1 =>
    let s := e.loadResources r
    let rest := PixelTransfer11.loadResourcesN s.self s.renderer n
    (s.result :: rest.1, rest.2)

/-! ## Status codes and workarounds -/

/-- A status code `HRESULT`: a signed 32-bit value. -/
abbrev HRESULT := Int

/-- The status `S_OK`. -/
def S_OK : HRESULT := 0

/-- The status `E_OUTOFMEMORY` (bit pattern `0x8007000E`). -/
def E_OUTOFMEMORY : HRESULT := 0x8007000E - 2 ^ 32

/-- The status `DXGI_ERROR_DEVICE_REMOVED` (bit pattern `0x887A0005`). -/
def DXGI_ERROR_DEVICE_REMOVED : HRESULT := 0x887A0005 - 2 ^ 32

/-- The status `DXGI_ERROR_DEVICE_HUNG` (bit pattern `0x887A0006`). -/
def DXGI_ERROR_DEVICE_HUNG : HRESULT := 0x887A0006 - 2 ^ 32

/-- The status `DXGI_ERROR_DEVICE_RESET` (bit pattern `0x887A0007`). -/
def DXGI_ERROR_DEVICE_RESET : HRESULT := 0x887A0007 - 2 ^ 32

/-- The status `DXGI_ERROR_DRIVER_INTERNAL_ERROR` (bit pattern `0x887A0020`). -/
def DXGI_ERROR_DRIVER_INTERNAL_ERROR : HRESULT := 0x887A0020 - 2 ^ 32

/-- The status `DXGI_ERROR_NOT_CURRENTLY_AVAILABLE` (bit pattern `0x887A0022`). -/
def DXGI_ERROR_NOT_CURRENTLY_AVAILABLE : HRESULT := 0x887A0022 - 2 ^ 32

/-- The function `d3d11::isDeviceLostError`: a `switch` over five cases that
return `true`, with a default that returns `false`. -/
def d3d11.isDeviceLostError (errorCode : HRESULT) : Bool :=
  if errorCode = DXGI_ERROR_DEVICE_HUNG then true
  else if errorCode = DXGI_ERROR_DEVICE_REMOVED then true
  else if errorCode = DXGI_ERROR_DEVICE_RESET then true
  else if errorCode = DXGI_ERROR_DRIVER_INTERNAL_ERROR then true
  else if errorCode = DXGI_ERROR_NOT_CURRENTLY_AVAILABLE then true
  else false

/-- The structure `D3DCompilerWorkarounds`. -/
structure D3DCompilerWorkarounds where
  skipOptimization : Bool
  useMaxOptimization : Bool
  enableIEEEStrictness : Bool
deriving DecidableEq, Repr

/-- A default-constructed `D3DCompilerWorkarounds`: the default member
initialisers of the structure. -/
def D3DCompilerWorkarounds.new : D3DCompilerWorkarounds :=
  { skipOptimization := false, useMaxOptimization := false, enableIEEEStrictness := false }

/-- The structure `WorkaroundsD3D`. -/
structure WorkaroundsD3D where
  mrtPerfWorkaround : Bool
  setDataFasterThanImageUpload : Bool
  zeroMaxLodWorkaround : Bool
  useInstancedPointSpriteEmulation : Bool
  depthStencilBlitExtraCopy : Bool
  expandIntegerPowExpressions : Bool
deriving DecidableEq, Repr

/-- A default-constructed `WorkaroundsD3D`: the default member initialisers of
the structure. -/
def WorkaroundsD3D.new : WorkaroundsD3D :=
  { mrtPerfWorkaround := false
    setDataFasterThanImageUpload := false
    zeroMaxLodWorkaround := false
    useInstancedPointSpriteEmulation := false
    depthStencilBlitExtraCopy := false
    expandIntegerPowExpressions := false }

/-- Switch on, in `w`, every flag that is on in `flags`. -/
def WorkaroundsD3D.enable (w flags : WorkaroundsD3D) : WorkaroundsD3D :=
  { mrtPerfWorkaround := w.mrtPerfWorkaround || flags.mrtPerfWorkaround
    setDataFasterThanImageUpload :=
      w.setDataFasterThanImageUpload || flags.setDataFasterThanImageUpload
    zeroMaxLodWorkaround := w.zeroMaxLodWorkaround || flags.zeroMaxLodWorkaround
    useInstancedPointSpriteEmulation :=
      w.useInstancedPointSpriteEmulation || flags.useInstancedPointSpriteEmulation
    depthStencilBlitExtraCopy := w.depthStencilBlitExtraCopy || flags.depthStencilBlitExtraCopy
    expandIntegerPowExpressions :=
      w.expandIntegerPowExpressions || flags.expandIntegerPowExpressions }

/-- Modelled from the spec: the device fingerprint read by `GenerateWorkarounds`
(`Renderer11DeviceCaps`, `DXGI_ADAPTER_DESC`) is missing. It is the
vendor/device/driver-version triple plus the detected feature level. -/
structure DeviceFingerprint where
  vendorId : Nat
  deviceId : Nat
  driverVersion : Nat
  featureLevel : Nat
deriving DecidableEq, Repr

/-- Modelled from the spec: a known-bad configuration of `GenerateWorkarounds`
(renderer11_utils.cpp, missing): the fingerprints it applies to and the flags
it enables. -/
structure KnownBadConfiguration where
  applies : DeviceFingerprint → Bool
  enables : WorkaroundsD3D

/-- Modelled from the spec: `d3d11::GenerateWorkarounds` is declared in
renderer11_utils.h and defined in renderer11_utils.cpp, which is missing. It
returns a fully populated set in which every flag defaults to disabled and is
enabled only when the fingerprint matches a known-bad configuration. -/
def d3d11.GenerateWorkarounds (knownBad : List KnownBadConfiguration)
    (fingerprint : DeviceFingerprint) : WorkaroundsD3D :=
  knownBad.foldl
    (fun w c => if c.applies fingerprint then w.enable c.enables else w) WorkaroundsD3D.new

/-! ## `LazyShader` -/

/-- The shader stage of a `LazyShader<D3D11ShaderType>`: its template argument. -/
inductive ShaderStage
  | vertex
  | geometry
  | pixel
deriving DecidableEq, Repr

/-- The class `LazyShader<D3D11ShaderType>` with its base `LazyResource`: the
cached shader, the device it was resolved on, and the byte code (its size and
debug name are dropped). -/
structure LazyShader where
  stage : ShaderStage
  mByteCode : ShaderBlob
  mResource : Option Handle
  mAssociatedDevice : Option Handle
deriving DecidableEq, Repr

/-- The constructor `LazyShader(byteCode, byteCodeSize, name)`. -/
def LazyShader.new (stage : ShaderStage) (byteCode : ShaderBlob) : LazyShader :=
  { stage := stage, mByteCode := byteCode, mResource := none, mAssociatedDevice := none }

/-- What a `resolve` of a `LazyShader` returns: the shader pointer, with the
renderer and the holder after the call. -/
structure ShaderStep where
  shader : Option Handle
  renderer : Renderer11
  self : LazyShader

/-- The method `LazyResource::checkAssociatedDevice`: remember the device. -/
def LazyShader.checkAssociatedDevice (l : LazyShader) (device : Handle) : LazyShader :=
  { l with mAssociatedDevice := some device }

/-- The three specialisations of `LazyShader::resolve`: compile with the creation
function of the stage only while `mResource` is null, and return `mResource`. -/
def LazyShader.resolve (l : LazyShader) (r : Renderer11) (device : Handle) : ShaderStep :=
  let l1 := l.checkAssociatedDevice device
  match l1.mResource with
  | none =>
    let c := match l1.stage with
      | ShaderStage.vertex => d3d11.CompileVS r l1.mByteCode
      | ShaderStage.geometry => d3d11.CompileGS r l1.mByteCode
      | ShaderStage.pixel => d3d11.CompilePS r l1.mByteCode
    { shader := c.1, renderer := c.2, self := { l1 with mResource := c.1 } }
  | some h => { shader := some h, renderer := r, self := l1 }

/-- The method `LazyResource::release`: `SafeRelease(mResource)`. -/
def LazyShader.release (l : LazyShader) (r : Renderer11) : Renderer11 × LazyShader :=
  let s := SafeRelease r l.mResource
  (s.1, { l with mResource := s.2 })

/-- The destructor `~LazyResource`: `release()`. -/
def LazyShader.destructor (l : LazyShader) (r : Renderer11) : Renderer11 × LazyShader :=
  l.release r

/-- Resolve `n` times in a row on the same device, collecting the returned
pointers. -/
def LazyShader.resolveN (l : LazyShader) (r : Renderer11) (device : Handle) :
    Nat → List (Option Handle) × Renderer11 × LazyShader
  | 0 => ([], r, l)
  | n + 1 =>
    let s := l.resolve r device
    let rest := LazyShader.resolveN s.self s.renderer device n
    (s.shader :: rest.1, rest.2)

/-! ## `TextureHelper11` -/

/-- The descriptor a native texture reports through `getDesc`: a
`D3D11_TEXTURE2D_DESC` or a `D3D11_TEXTURE3D_DESC`, with the fields read here. -/
inductive TextureDesc
  | D3D11_TEXTURE2D_DESC (Width Height SampleCount : Nat)
  | D3D11_TEXTURE3D_DESC (Width Height Depth : Nat)
deriving DecidableEq, Repr

/-- The class `TextureHelper11`: the shared record `mData`, the format set (a
pointer, by identity), the extents and the sample count. -/
structure TextureHelper11 where
  mData : GenericData
  mFormatSet : Option Nat
  mExtents : gl.Extents
  mSampleCount : Int
deriving DecidableEq, Repr

/-- Modelled from the spec: `Resource11Base::valid` (ResourceManager11.h) is
missing; a wrapper is valid when it holds a native object. -/
def TextureHelper11.valid (t : TextureHelper11) : Bool := t.mData.object.isSome

/-- Modelled from the spec: `TextureHelper11::initDesc` (renderer11_utils.cpp) is
missing; it derives and caches the dimensionality, extents and sample count
from the descriptor of the resource. -/
def TextureHelper11.initDesc (t : TextureHelper11) (desc : TextureDesc) : TextureHelper11 :=
  match desc with
  | TextureDesc.D3D11_TEXTURE2D_DESC w h samples =>
    { t with mData := { t.mData with resourceType := ResourceType.Texture2D }
             mExtents := { width := w, height := h, depth := 1 }
             mSampleCount := samples }
  | TextureDesc.D3D11_TEXTURE3D_DESC w h d =>
    { t with mData := { t.mData with resourceType := ResourceType.Texture3D }
             mExtents := { width := w, height := h, depth := d }
             mSampleCount := 1 }

/-- The method `TextureHelper11::set`; `desc` is what `getDesc` reads from the
attached object. The method returns nothing and makes no call on the object it
held before. -/
def TextureHelper11.set (t : TextureHelper11) (object : Option Handle) (format : Nat)
    (desc : TextureDesc) : TextureHelper11 :=
  let t1 := { t with mFormatSet := some format }
  let t2 := { t1 with mData := { t1.mData with object := object } }
  let t3 := { t2 with mData := { t2.mData with manager := none } }
  t3.initDesc desc

/-- The record `mData` of the `Resource11<ResourceT>` handed to
`TextureHelper11::init`: the native object and the resource manager it came
from. -/
structure TypedData where
  object : Option Handle
  manager : Option Handle
deriving DecidableEq, Repr

/-- The method `TextureHelper11::init`: swap the managers, swap the objects
through a temporary, store the format and derive the metadata. The value is
this wrapper and the record of the argument after the call. -/
def TextureHelper11.init (t : TextureHelper11) (texture : TypedData) (desc : TextureDesc)
    (format : Nat) : TextureHelper11 × TypedData :=
  let t1 := { t with mData := { t.mData with manager := texture.manager } }
  let texture1 : TypedData := { texture with manager := t.mData.manager }
  let temp := t1.mData.object
  let t2 := { t1 with mData := { t1.mData with object := texture1.object } }
  let texture2 : TypedData := { texture1 with object := temp }
  let t3 := { t2 with mFormatSet := some format }
  (t3.initDesc desc, texture2)

/-- The pair (object, manager) a wrapper owns. -/
def TextureHelper11.owned (t : TextureHelper11) : Option Handle × Option Handle :=
  (t.mData.object, t.mData.manager)

/-- The pair (object, manager) a typed resource owns. -/
def TypedData.owned (t : TypedData) : Option Handle × Option Handle :=
  (t.object, t.manager)

/-! ## Sample values -/

/-- A sample set of format tables: every format has float components and four
bytes per pixel. -/
def sampleTables : FormatTables :=
  { componentType := fun _ => GL_FLOAT
    pixelBytes := fun _ => 4
    unsizedFormat := fun f => f
    sizedInternalFormat := fun f _ => f
    srvFormat := fun _ => 1 }

/-- A sample unpack state: alignment 4, no row length, and a source buffer whose
shader resource view is object 100. -/
def sampleUnpack : PixelUnpackState :=
  { alignment := 4
    rowLength := 0
    pixelBuffer := { getSRV := fun _ => { error := gl.NoError, result := some 100 } } }

/-- A fresh renderer on which every native call succeeds. -/
def sampleRenderer : Renderer11 := { outcomes := [], nextHandle := 1, log := [] }

/-- A freshly constructed engine. -/
def sampleEngine : PixelTransfer11 := PixelTransfer11.new CopyShaderParams.zero

/-- A render target of the given extents whose view is object 200. -/
def sampleTarget (width height depth : Int) : RenderTarget11 :=
  { getExtents := { width := width, height := height, depth := depth }
    getRenderTargetView := some 200 }

/-- A retry scenario: on a fresh engine the first `loadResources` creates the
three state objects and the vertex shader and then fails to create the geometry
shader; the second `loadResources` succeeds; then the engine is destroyed. The
value is the renderer after the destructor, with the two returned errors. -/
def retryScenario : gl.Error × gl.Error × Renderer11 :=
  let s1 := sampleEngine.loadResources
    { outcomes := [true, true, true, true, false], nextHandle := 1, log := [] }
  let s2 := s1.self.loadResources s1.renderer
  let d := s2.self.destructor s2.renderer
  (s1.result, s2.result, d.1)

/-- A populated texture wrapper: a 4 x 4 2D texture, object 1, that came from
manager 9, with format set 3. -/
def sampleTexture : TextureHelper11 :=
  { mData := { resourceType := ResourceType.Texture2D, object := some 1, manager := some 9 }
    mFormatSet := some 3
    mExtents := { width := 4, height := 4, depth := 1 }
    mSampleCount := 1 }

/-- A fresh renderer on which the eight creations of `loadResources` succeed and
the next fallible call, the first `Map`, fails. -/
def failingMapRenderer : Renderer11 :=
  { outcomes := [true, true, true, true, true, true, true, true, false]
    nextHandle := 1
    log := [] }

/-- A scenario in which the upload fails: a fresh engine, a device on which the
first `Map` fails, and two consecutive transfers of the same 2 x 2 region into
a 4 x 4 destination with identical inputs. The value is the two calls'
results. -/
def mapFailureScenario : Step PixelTransfer11 × Step PixelTransfer11 :=
  let s1 := sampleEngine.copyBufferToTexture failingMapRenderer
    sampleTables sampleUnpack 0 (sampleTarget 4 4 1) 0 0 ⟨0, 0, 0, 2, 2, 1⟩
  let s2 := s1.self.copyBufferToTexture s1.renderer
    sampleTables sampleUnpack 0 (sampleTarget 4 4 1) 0 0 ⟨0, 0, 0, 2, 2, 1⟩
  (s1, s2)

/-! ## Theorems -/

/-- Where the sum does not wrap, `roundUp` gives the least multiple of the
alignment that is at least the value. -/
theorem roundUp_isLeast (p m : Nat) (hm : 1 ≤ m) (h : p + m ≤ UINT_RANGE) :
    IsLeastMultipleGE m p (roundUp p m) := by
  have hlt : p + m - 1 < UINT_RANGE := by omega
  have ht : (p + m - 1) % UINT_RANGE = p + m - 1 := Nat.mod_eq_of_lt hlt
  have hr : (p + m - 1) % m < m := Nat.mod_lt _ (by omega)
  have hdm := Nat.div_add_mod (p + m - 1) m
  have hval : roundUp p m = m * ((p + m - 1) / m) := by
    unfold roundUp
    simp only [ht]
    omega
  refine ⟨?_, ?_, ?_⟩
  · rw [hval]; exact Dvd.intro _ rfl
  · rw [hval]; omega
  · rintro k ⟨c, rfl⟩ hk
    rw [hval]
    apply Nat.mul_le_mul_left
    by_contra hc
    have hc2 : c + 1 ≤ (p + m - 1) / m := by omega
    have h3 : m * (c + 1) ≤ m * ((p + m - 1) / m) := Nat.mul_le_mul_left _ hc2
    have h4 : m * (c + 1) = m * c + m := by ring
    omega

/-- Inputs in the range of their C++ types and a row length that is not negative
keep the rounding sum below `2 ^ 32`: a positive `rowLength`, or a region width
that is not negative, gives `PixelsPerRow + alignmentPixels <= 2 ^ 32`. -/
theorem rowStride_sum_fits (destArea : gl.Box) (destSize : gl.Extents) (b : Nat)
    (a rowLength : Int) (offset : Nat) (ha : 1 ≤ a) (ha31 : a < 2 ^ 31)
    (hr : rowLength < 2 ^ 31) (hw : 0 ≤ destArea.width) (hw31 : destArea.width < 2 ^ 31) :
    (setBufferToTextureCopyParams destArea destSize b a rowLength offset).PixelsPerRow
      + alignmentPixels (toUnsigned a) b ≤ UINT_RANGE := by
  have hA : toUnsigned a = a.toNat := by
    unfold toUnsigned UINT_RANGE
    rw [Int.emod_eq_of_lt (by omega) (by norm_num; omega)]
  have hm : alignmentPixels (toUnsigned a) b ≤ a.toNat := by
    rw [hA]; unfold alignmentPixels
    split
    · omega
    · exact Nat.div_le_self _ _
  have hp : (setBufferToTextureCopyParams destArea destSize b a rowLength offset).PixelsPerRow
      < 2 ^ 31 := by
    simp only [setBufferToTextureCopyParams, toUnsigned, UINT_RANGE]
    split
    · rw [Int.emod_eq_of_lt (by omega) (by norm_num; omega)]; omega
    · rw [Int.emod_eq_of_lt (by omega) (by norm_num; omega)]; omega
  unfold UINT_RANGE
  omega

/-- C1 (amended). For an unpack alignment `a >= 1` (a `GLint`), `bytesPerPixel`
`b >= 1` and a `PixelsPerRow` value `p` with `p + alignmentPixels <= 2 ^ 32`,
`setBufferToTextureCopyParams` sets `RowStride` to the least multiple of
`alignmentPixels` that is at least `p`, where `alignmentPixels` is `1` when
`a <= b` and `a / b` otherwise. With `a = 4`, `b = 4` the row stride equals
`PixelsPerRow`; with `a = 8`, `b = 4`, `rowLength = 0` and a region width of `3`,
`alignmentPixels` is `2` and `RowStride` is `4`. -/
theorem setBufferToTextureCopyParams_rowStride (destArea : gl.Box) (destSize : gl.Extents)
    (b : Nat) (a rowLength : Int) (offset : Nat)
    (ha : 1 ≤ a) (ha31 : a < 2 ^ 31) (hb : 1 ≤ b)
    (hfit : (setBufferToTextureCopyParams destArea destSize b a rowLength offset).PixelsPerRow
      + alignmentPixels (toUnsigned a) b ≤ UINT_RANGE) :
    alignmentPixels (toUnsigned a) b = (if a.toNat ≤ b then 1 else a.toNat / b) ∧
    IsLeastMultipleGE (if a.toNat ≤ b then 1 else a.toNat / b)
      (setBufferToTextureCopyParams destArea destSize b a rowLength offset).PixelsPerRow
      (setBufferToTextureCopyParams destArea destSize b a rowLength offset).RowStride ∧
    (a = 4 → b = 4 →
      (setBufferToTextureCopyParams destArea destSize b a rowLength offset).RowStride
        = (setBufferToTextureCopyParams destArea destSize b a rowLength offset).PixelsPerRow) ∧
    (a = 8 → b = 4 → rowLength = 0 → destArea.width = 3 →
      alignmentPixels (toUnsigned a) b = 2 ∧
      (setBufferToTextureCopyParams destArea destSize b a rowLength offset).RowStride = 4) := by
  have hA : toUnsigned a = a.toNat := by
    unfold toUnsigned UINT_RANGE
    rw [Int.emod_eq_of_lt (by omega) (by norm_num; omega)]
  have hdef : alignmentPixels (toUnsigned a) b = (if a.toNat ≤ b then 1 else a.toNat / b) := by
    rw [hA]; rfl
  have hm1 : 1 ≤ alignmentPixels (toUnsigned a) b := by
    rw [hdef]
    split
    · exact le_refl 1
    · rename_i hlt
      exact (Nat.one_le_div_iff (by omega)).2 (by omega)
  have hleast := roundUp_isLeast _ _ hm1 hfit
  have hrs : (setBufferToTextureCopyParams destArea destSize b a rowLength offset).RowStride
      = roundUp (setBufferToTextureCopyParams destArea destSize b a rowLength offset).PixelsPerRow
          (alignmentPixels (toUnsigned a) b) := rfl
  refine ⟨hdef, ?_, ?_, ?_⟩
  · rw [← hdef, hrs]; exact hleast
  · rintro rfl rfl
    have h1 : alignmentPixels (toUnsigned 4) 4 = 1 := by rw [hdef]; rfl
    rw [hrs, h1]
    rw [h1] at hfit
    unfold roundUp
    simp only [Nat.add_sub_cancel]
    rw [Nat.mod_eq_of_lt (by omega), Nat.mod_one, Nat.sub_zero]
  · rintro rfl rfl rfl hw
    have h2 : alignmentPixels (toUnsigned 8) 4 = 2 := by rw [hdef]; rfl
    refine ⟨h2, ?_⟩
    rw [hrs, h2]
    simp only [setBufferToTextureCopyParams, hw]
    decide

/-- Witness for C1 (amended): alignment 8, four bytes per pixel, a region of
width 3 in a 4 x 4 destination. -/
theorem setBufferToTextureCopyParams_rowStride_witness :
    IsLeastMultipleGE 2
      (setBufferToTextureCopyParams ⟨0, 0, 0, 3, 2, 1⟩ ⟨4, 4, 1⟩ 4 8 0 0).PixelsPerRow
      (setBufferToTextureCopyParams ⟨0, 0, 0, 3, 2, 1⟩ ⟨4, 4, 1⟩ 4 8 0 0).RowStride :=
  (setBufferToTextureCopyParams_rowStride ⟨0, 0, 0, 3, 2, 1⟩ ⟨4, 4, 1⟩ 4 8 0 0
    (by decide) (by decide) (by decide) (by decide)).2.1

/-- C1 (counterexample). With alignment 8, four bytes per pixel, `rowLength = 0`
and a region width of `-1`, `PixelsPerRow` is `4294967295`, `alignmentPixels` is
`2` and `RowStride` is `0`, which is not the least multiple of `2` that is at
least `PixelsPerRow`: that multiple, `4294967296`, is no `unsigned int`. -/
theorem rowStride_wraps_for_negative_width :
    (setBufferToTextureCopyParams ⟨0, 0, 0, -1, 1, 1⟩ ⟨4, 4, 1⟩ 4 8 0 0).PixelsPerRow
      = 4294967295 ∧
    alignmentPixels (toUnsigned 8) 4 = 2 ∧
    (setBufferToTextureCopyParams ⟨0, 0, 0, -1, 1, 1⟩ ⟨4, 4, 1⟩ 4 8 0 0).RowStride = 0 ∧
    ¬ IsLeastMultipleGE (alignmentPixels (toUnsigned 8) 4)
      (setBufferToTextureCopyParams ⟨0, 0, 0, -1, 1, 1⟩ ⟨4, 4, 1⟩ 4 8 0 0).PixelsPerRow
      (setBufferToTextureCopyParams ⟨0, 0, 0, -1, 1, 1⟩ ⟨4, 4, 1⟩ 4 8 0 0).RowStride := by
  have hp :
      (setBufferToTextureCopyParams ⟨0, 0, 0, -1, 1, 1⟩ ⟨4, 4, 1⟩ 4 8 0 0).PixelsPerRow
        = 4294967295 := by decide
  have hs : (setBufferToTextureCopyParams ⟨0, 0, 0, -1, 1, 1⟩ ⟨4, 4, 1⟩ 4 8 0 0).RowStride
      = 0 := by decide
  refine ⟨hp, by decide, hs, ?_⟩
  rw [hp, hs]
  rintro ⟨-, h, -⟩
  omega

/-! ### The device log -/

theorem Renderer11.create_log (r : Renderer11) : r.create.2.log = r.log := by
  rcases r with ⟨_ | ⟨_ | _, outs⟩, nh, log⟩ <;> rfl

theorem Renderer11.allocateResource_log (r : Renderer11) (d : Desc) (out : Resource11) :
    (r.allocateResource d out).renderer.log = r.log ++ [Call.allocateResource d r.create.1] := by
  simp only [Renderer11.allocateResource]
  split <;> simp [*, Renderer11.emit, Renderer11.create_log]

theorem Renderer11.allocateResource_isError (r : Renderer11) (d : Desc) (out : Resource11) :
    (r.allocateResource d out).result.isError = r.create.1.isNone := by
  simp only [Renderer11.allocateResource]
  split <;> simp [*, gl.Error.isError, gl.NoError, GL_NO_ERROR, GL_OUT_OF_MEMORY]

theorem Renderer11.allocateResource_result (r : Renderer11) (d : Desc) (out : Resource11) :
    (r.allocateResource d out).result
      = if r.create.1.isNone then { code := GL_OUT_OF_MEMORY } else gl.NoError := by
  simp only [Renderer11.allocateResource]
  split <;> simp [*]

theorem Renderer11.allocateResource_self (r : Renderer11) (d : Desc) (out : Resource11) :
    (r.allocateResource d out).self
      = if r.create.1.isNone then out else { object := r.create.1 } := by
  simp only [Renderer11.allocateResource]
  split <;> simp [*]

theorem d3d11.CompileVS_log (r : Renderer11) (b : ShaderBlob) :
    (d3d11.CompileVS r b).2.log = r.log ++ [Call.CreateVertexShader b (d3d11.CompileVS r b).1] := by
  simp [d3d11.CompileVS, Renderer11.emit, Renderer11.create_log]

theorem d3d11.CompileGS_log (r : Renderer11) (b : ShaderBlob) :
    (d3d11.CompileGS r b).2.log
      = r.log ++ [Call.CreateGeometryShader b (d3d11.CompileGS r b).1] := by
  simp [d3d11.CompileGS, Renderer11.emit, Renderer11.create_log]

theorem d3d11.CompilePS_log (r : Renderer11) (b : ShaderBlob) :
    (d3d11.CompilePS r b).2.log = r.log ++ [Call.CreatePixelShader b (d3d11.CompilePS r b).1] := by
  simp [d3d11.CompilePS, Renderer11.emit, Renderer11.create_log]

theorem ShaderMap.assign_three (m : ShaderMap)
    (hm : m = [] ∨ m.map Prod.fst = shaderMapKeys) (f i u : Option Handle) :
    ShaderMap.assign (ShaderMap.assign (ShaderMap.assign m GL_FLOAT f) GL_INT i)
      GL_UNSIGNED_INT u = [(GL_INT, i), (GL_UNSIGNED_INT, u), (GL_FLOAT, f)] := by
  rcases hm with rfl | hm
  · simp [ShaderMap.assign, GL_FLOAT, GL_INT, GL_UNSIGNED_INT]
  · unfold shaderMapKeys at hm
    match m, hm with
    | [(k1, a), (k2, b), (k3, c)], hm =>
      simp only [List.map_cons, List.map_nil, List.cons.injEq, and_true] at hm
      obtain ⟨rfl, rfl, rfl⟩ := hm
      simp [ShaderMap.assign, GL_FLOAT, GL_INT, GL_UNSIGNED_INT]

/-- The method `buildShaderMap` in closed form, on a map that is empty or has the
three component type keys. -/
theorem PixelTransfer11.buildShaderMap_eq (e : PixelTransfer11) (r : Renderer11)
    (hm : e.mBufferToTexturePSMap = [] ∨ e.mBufferToTexturePSMap.map Prod.fst = shaderMapKeys) :
    e.buildShaderMap r =
      { result :=
          if ((d3d11.CompilePS r ShaderBlob.g_PS_BufferToTexture_4F).1.isNone
              || (d3d11.CompilePS (d3d11.CompilePS r ShaderBlob.g_PS_BufferToTexture_4F).2
                    ShaderBlob.g_PS_BufferToTexture_4I).1.isNone
              || (d3d11.CompilePS (d3d11.CompilePS
                    (d3d11.CompilePS r ShaderBlob.g_PS_BufferToTexture_4F).2
                    ShaderBlob.g_PS_BufferToTexture_4I).2
                    ShaderBlob.g_PS_BufferToTexture_4UI).1.isNone) = true
          then { code := GL_OUT_OF_MEMORY } else gl.NoError
        renderer := (d3d11.CompilePS (d3d11.CompilePS
                    (d3d11.CompilePS r ShaderBlob.g_PS_BufferToTexture_4F).2
                    ShaderBlob.g_PS_BufferToTexture_4I).2
                    ShaderBlob.g_PS_BufferToTexture_4UI).2
        self := { e with mBufferToTexturePSMap :=
          [(GL_INT, (d3d11.CompilePS (d3d11.CompilePS r ShaderBlob.g_PS_BufferToTexture_4F).2
                    ShaderBlob.g_PS_BufferToTexture_4I).1),
           (GL_UNSIGNED_INT, (d3d11.CompilePS (d3d11.CompilePS
                    (d3d11.CompilePS r ShaderBlob.g_PS_BufferToTexture_4F).2
                    ShaderBlob.g_PS_BufferToTexture_4I).2
                    ShaderBlob.g_PS_BufferToTexture_4UI).1),
           (GL_FLOAT, (d3d11.CompilePS r ShaderBlob.g_PS_BufferToTexture_4F).1)] } } := by
  simp only [PixelTransfer11.buildShaderMap, ShaderMap.assign_three _ hm]
  generalize (d3d11.CompilePS r ShaderBlob.g_PS_BufferToTexture_4F) = f
  generalize (d3d11.CompilePS f.2 ShaderBlob.g_PS_BufferToTexture_4I) = i
  generalize (d3d11.CompilePS i.2 ShaderBlob.g_PS_BufferToTexture_4UI) = u
  rcases hf : f.1 with _ | f1 <;> rcases hi : i.1 with _ | i1 <;> rcases hu : u.1 with _ | u1 <;>
    simp

/-- What one call of `loadResources` does on an engine whose resources are not
loaded: it only makes creation calls, and either all eight succeed, the call
returns no error and the resources are loaded, or one fails, the call returns
an out-of-memory error and the resources stay unloaded. -/
theorem PixelTransfer11.loadResources_unloaded (e : PixelTransfer11) (r : Renderer11)
    (hinv : e.Inv) (hl : e.mResourcesLoaded = false) :
    (e.loadResources r).renderer.log = r.log ++ callsSince r (e.loadResources r).renderer ∧
    (callsSince r (e.loadResources r).renderer).all (fun c => (creationResult c).isSome) = true ∧
    callsSince r (e.loadResources r).renderer ≠ [] ∧
    (e.loadResources r).self.Inv ∧
    (((e.loadResources r).result = gl.NoError ∧
        (e.loadResources r).self.mResourcesLoaded = true ∧
        (e.loadResources r).self.mParamsData = CopyShaderParams.zero ∧
        allCreated 8 (callsSince r (e.loadResources r).renderer)) ∨
      ((e.loadResources r).result = { code := GL_OUT_OF_MEMORY } ∧
        (e.loadResources r).self.mResourcesLoaded = false ∧
        someCreationFailed (callsSince r (e.loadResources r).renderer))) := by
  have hm := hinv.1
  simp only [PixelTransfer11.loadResources, hl, Bool.false_eq_true, if_false,
    Renderer11.allocateResource_isError]
  rw [PixelTransfer11.buildShaderMap_eq _ _ (by simpa using hm)]
  split_ifs with h1 h2 h3 h4 h5 h6
  all_goals
    simp only [callsSince, Renderer11.allocateResource_log, d3d11.CompileVS_log,
      d3d11.CompileGS_log, d3d11.CompilePS_log, List.append_assoc, List.drop_left,
      List.singleton_append, List.nil_append, Renderer11.allocateResource_result,
      Renderer11.allocateResource_self]
  all_goals
    simp_all [creations, creationResult, allCreated, someCreationFailed, PixelTransfer11.Inv,
      gl.NoError, GL_OUT_OF_MEMORY, GL_NO_ERROR, shaderMapKeys, Resource11.valid,
      gl.Error.isError, Option.isSome_iff_ne_none, @eq_comm _ none]
  tauto

theorem CreatesOnly.refl (r : Renderer11) : CreatesOnly r r :=
  ⟨[], by simp, by simp⟩

theorem CreatesOnly.trans {a b c : Renderer11} (h1 : CreatesOnly a b) (h2 : CreatesOnly b c) :
    CreatesOnly a c := by
  obtain ⟨cs1, e1, a1⟩ := h1
  obtain ⟨cs2, e2, a2⟩ := h2
  refine ⟨cs1 ++ cs2, by rw [e2, e1, List.append_assoc], ?_⟩
  rw [List.all_append, a1, a2]; rfl

theorem CreatesOnly.calls {a b : Renderer11} (h : CreatesOnly a b) :
    b.log = a.log ++ callsSince a b ∧
    (callsSince a b).all (fun c => (creationResult c).isSome) = true := by
  obtain ⟨cs, e, hall⟩ := h
  have : callsSince a b = cs := by simp [callsSince, e]
  rw [this]; exact ⟨e, hall⟩

theorem Renderer11.allocateResource_createsOnly (r : Renderer11) (d : Desc) (out : Resource11) :
    CreatesOnly r (r.allocateResource d out).renderer :=
  ⟨_, Renderer11.allocateResource_log r d out, by simp [creationResult]⟩

theorem d3d11.CompileVS_createsOnly (r : Renderer11) (b : ShaderBlob) :
    CreatesOnly r (d3d11.CompileVS r b).2 :=
  ⟨_, d3d11.CompileVS_log r b, by simp [creationResult]⟩

theorem d3d11.CompileGS_createsOnly (r : Renderer11) (b : ShaderBlob) :
    CreatesOnly r (d3d11.CompileGS r b).2 :=
  ⟨_, d3d11.CompileGS_log r b, by simp [creationResult]⟩

theorem d3d11.CompilePS_createsOnly (r : Renderer11) (b : ShaderBlob) :
    CreatesOnly r (d3d11.CompilePS r b).2 :=
  ⟨_, d3d11.CompilePS_log r b, by simp [creationResult]⟩

theorem PixelTransfer11.buildShaderMap_createsOnly (e : PixelTransfer11) (r : Renderer11) :
    CreatesOnly r (e.buildShaderMap r).renderer := by
  have hr : (e.buildShaderMap r).renderer = (d3d11.CompilePS (d3d11.CompilePS
        (d3d11.CompilePS r ShaderBlob.g_PS_BufferToTexture_4F).2
        ShaderBlob.g_PS_BufferToTexture_4I).2 ShaderBlob.g_PS_BufferToTexture_4UI).2 := by
    simp only [PixelTransfer11.buildShaderMap]
    split_ifs <;> rfl
  rw [hr]
  exact ((d3d11.CompilePS_createsOnly _ _).trans (d3d11.CompilePS_createsOnly _ _)).trans
    (d3d11.CompilePS_createsOnly _ _)

/-- A call of `loadResources` only appends creation calls to the log. -/
theorem PixelTransfer11.loadResources_createsOnly (e : PixelTransfer11) (r : Renderer11) :
    CreatesOnly r (e.loadResources r).renderer := by
  simp only [PixelTransfer11.loadResources]
  split_ifs
  all_goals
    repeat
      first
      | exact CreatesOnly.refl _
      | refine CreatesOnly.trans ?_ (Renderer11.allocateResource_createsOnly _ _ _)
      | refine CreatesOnly.trans ?_ (d3d11.CompileVS_createsOnly _ _)
      | refine CreatesOnly.trans ?_ (d3d11.CompileGS_createsOnly _ _)
      | refine CreatesOnly.trans ?_ (PixelTransfer11.buildShaderMap_createsOnly _ _)

theorem draws_of_creations (cs : List Call)
    (h : cs.all (fun c => (creationResult c).isSome) = true) : draws cs = [] := by
  unfold draws
  rw [List.filterMap_eq_nil_iff]
  intro c hc
  have h1 := List.all_eq_true.1 h c hc
  cases c <;> first | rfl | (exact absurd h1 (by simp [creationResult]))

theorem geometryBindings_of_creations (cs : List Call)
    (h : cs.all (fun c => (creationResult c).isSome) = true) : geometryBindings cs = [] := by
  unfold geometryBindings
  rw [List.filterMap_eq_nil_iff]
  intro c hc
  have h1 := List.all_eq_true.1 h c hc
  cases c <;> first | rfl | (exact absurd h1 (by simp [creationResult]))

/-- A call of `loadResources` that returns no error leaves the resources loaded. -/
theorem PixelTransfer11.loadResources_noError (e : PixelTransfer11) (r : Renderer11)
    (h : (e.loadResources r).result.isError = false) :
    (e.loadResources r).self.mResourcesLoaded = true := by
  simp only [PixelTransfer11.loadResources] at h ⊢
  split_ifs at h ⊢ <;> simp_all [gl.Error.isError, GL_OUT_OF_MEMORY, GL_NO_ERROR]

/-- On an engine whose resources are loaded, `loadResources` does nothing. -/
theorem PixelTransfer11.loadResources_loaded (e : PixelTransfer11) (r : Renderer11)
    (h : e.mResourcesLoaded = true) :
    e.loadResources r = { result := gl.NoError, renderer := r, self := e } := by
  simp [PixelTransfer11.loadResources, h]

theorem PixelTransfer11.Inv_new (u : CopyShaderParams) : (PixelTransfer11.new u).Inv := by
  simp [PixelTransfer11.Inv, PixelTransfer11.new]

theorem PixelTransfer11.Inv_loadResources (e : PixelTransfer11) (r : Renderer11)
    (h : e.Inv) : (e.loadResources r).self.Inv := by
  cases hl : e.mResourcesLoaded
  · exact (PixelTransfer11.loadResources_unloaded e r h hl).2.2.2.1
  · rw [PixelTransfer11.loadResources_loaded e r hl]; exact h

theorem PixelTransfer11.Inv_copyBufferToTexture (e : PixelTransfer11) (r : Renderer11)
    (tables : FormatTables) (unpack : PixelUnpackState) (offset : Nat)
    (destRenderTarget : RenderTarget11) (destinationFormat sourcePixelsType : GLenum)
    (destArea : gl.Box) (h : e.Inv) :
    (e.copyBufferToTexture r tables unpack offset destRenderTarget destinationFormat
      sourcePixelsType destArea).self.Inv := by
  have hl := PixelTransfer11.Inv_loadResources e r h
  simp only [PixelTransfer11.copyBufferToTexture]
  split_ifs <;> exact hl

/-- Every state of an engine that the code can produce satisfies the
representation invariant. -/
theorem PixelTransfer11.Reachable.inv {e : PixelTransfer11} (h : e.Reachable) : e.Inv := by
  induction h with
  | new u => exact PixelTransfer11.Inv_new u
  | loadResources e r _ ih => exact PixelTransfer11.Inv_loadResources e r ih
  | copyBufferToTexture e r t u o d f s a _ ih =>
    exact PixelTransfer11.Inv_copyBufferToTexture e r t u o d f s a ih

/-! ### `copyBufferToTexture` -/

theorem d3d11.SetBufferData_log (r : Renderer11) (cb : Option Handle) (v : CopyShaderParams) :
    (d3d11.SetBufferData r cb v).log = r.log ++ uploadCalls r cb v := by
  rcases r with ⟨_ | ⟨_ | _, outs⟩, nh, log⟩ <;>
    simp [d3d11.SetBufferData, uploadCalls, Renderer11.nextOutcome, Renderer11.emit,
      Renderer11.emitAll]

theorem Renderer11.emitAll_log (r : Renderer11) (cs : List Call) :
    (r.emitAll cs).log = r.log ++ cs := rfl

theorem uploadCalls_emitAll (r : Renderer11) (cs : List Call) (cb : Option Handle)
    (v : CopyShaderParams) : uploadCalls (r.emitAll cs) cb v = uploadCalls r cb v := by
  rcases r with ⟨_ | ⟨_ | _, outs⟩, nh, log⟩ <;> rfl

/-- A call of `copyBufferToTexture` fails exactly when `loadResources` fails or
the source view cannot be resolved, and then makes no call beyond those of
`loadResources`. -/
theorem PixelTransfer11.copyBufferToTexture_failure (e : PixelTransfer11) (r : Renderer11)
    (tables : FormatTables) (unpack : PixelUnpackState) (offset : Nat)
    (destRenderTarget : RenderTarget11) (destinationFormat sourcePixelsType : GLenum)
    (destArea : gl.Box)
    (h : (e.loadResources r).result.isError = true ∨
      (sourceView tables unpack destinationFormat sourcePixelsType).error.isError = true) :
    (e.copyBufferToTexture r tables unpack offset destRenderTarget destinationFormat
      sourcePixelsType destArea).result.isError = true ∧
    (e.copyBufferToTexture r tables unpack offset destRenderTarget destinationFormat
      sourcePixelsType destArea).renderer = (e.loadResources r).renderer ∧
    (e.copyBufferToTexture r tables unpack offset destRenderTarget destinationFormat
      sourcePixelsType destArea).self = (e.loadResources r).self := by
  simp only [sourceView, sourceSizedFormat] at h
  by_cases h1 : (e.loadResources r).result.isError = true
  · simp only [PixelTransfer11.copyBufferToTexture, h1, if_true, and_self]
  · have h2 := h.resolve_left h1
    simp only [PixelTransfer11.copyBufferToTexture, h1, h2, if_true, if_false, and_self,
      Bool.false_eq_true]

/-- The calls of a `copyBufferToTexture` that gets past `loadResources` and the
source view: the bindings, the upload of the parameters if they differ from the
shadow, then the constant buffer binding, the viewport, the draw and the
unbinding. -/
theorem PixelTransfer11.copyBufferToTexture_success (e : PixelTransfer11) (r : Renderer11)
    (tables : FormatTables) (unpack : PixelUnpackState) (offset : Nat)
    (destRenderTarget : RenderTarget11) (destinationFormat sourcePixelsType : GLenum)
    (destArea : gl.Box)
    (hl : (e.loadResources r).result.isError = false)
    (hs : (sourceView tables unpack destinationFormat sourcePixelsType).error.isError = false) :
    (e.copyBufferToTexture r tables unpack offset destRenderTarget destinationFormat
      sourcePixelsType destArea).result = gl.NoError ∧
    (e.copyBufferToTexture r tables unpack offset destRenderTarget destinationFormat
      sourcePixelsType destArea).self =
      { (e.loadResources r).self with
        mParamsData := copyParams tables unpack offset destRenderTarget destinationFormat
          sourcePixelsType destArea } ∧
    (e.copyBufferToTexture r tables unpack offset destRenderTarget destinationFormat
      sourcePixelsType destArea).renderer.log =
      (e.loadResources r).renderer.log ++
      ([ Call.VSSetShader (e.loadResources r).self.mBufferToTextureVS,
         Call.GSSetShader (if destRenderTarget.getExtents.depth > 1
           then (e.loadResources r).self.mBufferToTextureGS else none),
         Call.PSSetShader ((e.loadResources r).self.findBufferToTexturePS tables
           destinationFormat),
         Call.setShaderResource 0
           (sourceView tables unpack destinationFormat sourcePixelsType).result,
         Call.IASetInputLayout none,
         Call.IASetPrimitiveTopologyPointList,
         Call.IASetVertexBuffers 0 none,
         Call.OMSetBlendState none,
         Call.OMSetDepthStencilState (e.loadResources r).self.mCopyDepthStencilState.get,
         Call.RSSetState (e.loadResources r).self.mCopyRasterizerState.get,
         Call.setOneTimeRenderTarget destRenderTarget.getRenderTargetView ] ++
       (if (e.loadResources r).self.mParamsData ≠ copyParams tables unpack offset
            destRenderTarget destinationFormat sourcePixelsType destArea
        then uploadCalls (e.loadResources r).renderer
          (e.loadResources r).self.mParamsConstantBuffer.get
          (copyParams tables unpack offset destRenderTarget destinationFormat
            sourcePixelsType destArea)
        else []) ++
       [ Call.VSSetConstantBuffers 0 (e.loadResources r).self.mParamsConstantBuffer.get,
         Call.RSSetViewports (destRenderTarget.getExtents.width : ℚ)
           (destRenderTarget.getExtents.height : ℚ),
         Call.Draw (toUnsigned (destArea.width * destArea.height * destArea.depth)),
         Call.setShaderResource 0 none,
         Call.VSSetConstantBuffers 0 none,
         Call.markAllStateDirty ]) := by
  simp only [sourceView, sourceSizedFormat, copyParams] at hs ⊢
  simp only [PixelTransfer11.copyBufferToTexture, hl, hs, Bool.false_eq_true, if_false]
  refine ⟨trivial, ?_, ?_⟩
  · by_cases h : (e.loadResources r).self.mParamsData = setBufferToTextureCopyParams destArea
        destRenderTarget.getExtents (tables.pixelBytes (tables.sizedInternalFormat
          (tables.unsizedFormat destinationFormat) sourcePixelsType))
        unpack.alignment unpack.rowLength offset
    · simp only [ne_eq, h, not_true_eq_false, if_false]
      rw [← h]
    · simp only [ne_eq, h, not_false_eq_true, if_true]
  · by_cases h : (e.loadResources r).self.mParamsData = setBufferToTextureCopyParams destArea
        destRenderTarget.getExtents (tables.pixelBytes (tables.sizedInternalFormat
          (tables.unsizedFormat destinationFormat) sourcePixelsType))
        unpack.alignment unpack.rowLength offset
    · simp only [ne_eq, h, not_true_eq_false, if_false, Renderer11.emitAll, List.append_assoc,
        List.nil_append]
    · simp only [ne_eq, h, not_false_eq_true, if_true, Renderer11.emitAll_log,
        d3d11.SetBufferData_log, uploadCalls_emitAll, List.append_assoc]

theorem draws_append (a b : List Call) : draws (a ++ b) = draws a ++ draws b := by
  simp [draws, List.filterMap_append]

theorem geometryBindings_append (a b : List Call) :
    geometryBindings (a ++ b) = geometryBindings a ++ geometryBindings b := by
  simp [geometryBindings, List.filterMap_append]

theorem draws_uploadCalls (r : Renderer11) (cb : Option Handle) (v : CopyShaderParams) :
    draws (uploadCalls r cb v) = [] := by
  unfold uploadCalls draws
  split <;> rfl

theorem geometryBindings_uploadCalls (r : Renderer11) (cb : Option Handle)
    (v : CopyShaderParams) : geometryBindings (uploadCalls r cb v) = [] := by
  unfold uploadCalls geometryBindings
  split <;> rfl

/-- The calls of a successful `copyBufferToTexture`, counted from the renderer it
was given: those of `loadResources`, then the rest. -/
theorem PixelTransfer11.copyBufferToTexture_callsSince (e : PixelTransfer11) (r : Renderer11)
    (tables : FormatTables) (unpack : PixelUnpackState) (offset : Nat)
    (destRenderTarget : RenderTarget11) (destinationFormat sourcePixelsType : GLenum)
    (destArea : gl.Box)
    (hl : (e.loadResources r).result.isError = false)
    (hs : (sourceView tables unpack destinationFormat sourcePixelsType).error.isError = false) :
    draws (callsSince r (e.copyBufferToTexture r tables unpack offset destRenderTarget
      destinationFormat sourcePixelsType destArea).renderer)
      = [toUnsigned (destArea.width * destArea.height * destArea.depth)] ∧
    geometryBindings (callsSince r (e.copyBufferToTexture r tables unpack offset
      destRenderTarget destinationFormat sourcePixelsType destArea).renderer)
      = [if destRenderTarget.getExtents.depth > 1
          then (e.loadResources r).self.mBufferToTextureGS else none] := by
  have h := (PixelTransfer11.copyBufferToTexture_success e r tables unpack offset
    destRenderTarget destinationFormat sourcePixelsType destArea hl hs).2.2
  obtain ⟨cs, hcs, hall⟩ := PixelTransfer11.loadResources_createsOnly e r
  rw [hcs, List.append_assoc] at h
  have hd := draws_of_creations cs hall
  have hg := geometryBindings_of_creations cs hall
  generalize (if destRenderTarget.getExtents.depth > 1
    then (e.loadResources r).self.mBufferToTextureGS else none) = g at h ⊢
  have hu : ∀ (c : Prop) [Decidable c] (u : List Call), draws u = [] →
      draws (if c then u else []) = [] := by
    intro c _ u hu; split <;> first | exact hu | rfl
  have hv : ∀ (c : Prop) [Decidable c] (u : List Call), geometryBindings u = [] →
      geometryBindings (if c then u else []) = [] := by
    intro c _ u hu; split <;> first | exact hu | rfl
  simp only [callsSince, h, List.drop_left]
  constructor
  · rw [draws_append, draws_append, draws_append, hd, hu _ _ (draws_uploadCalls _ _ _)]
    rfl
  · rw [geometryBindings_append, geometryBindings_append, geometryBindings_append, hg,
      hv _ _ (geometryBindings_uploadCalls _ _ _)]
    rfl

/-! ### Claims -/

/-- C2 (counterexample). On a fresh engine and a device on which every call
succeeds, a transfer into a 4 x 4 x 1 destination of the region with origin
`x = 3` and width `2`, which exceeds the width, returns no error and issues a
draw of two points. -/
theorem copyBufferToTexture_out_of_bounds_draws :
    ¬ regionWithin ⟨3, 0, 0, 2, 1, 1⟩ (sampleTarget 4 4 1).getExtents ∧
    (sampleEngine.copyBufferToTexture sampleRenderer sampleTables sampleUnpack 0
      (sampleTarget 4 4 1) 0 0 ⟨3, 0, 0, 2, 1, 1⟩).result = gl.NoError ∧
    draws (sampleEngine.copyBufferToTexture sampleRenderer sampleTables sampleUnpack 0
      (sampleTarget 4 4 1) 0 0 ⟨3, 0, 0, 2, 1, 1⟩).renderer.log = [2] := by
  refine ⟨?_, ?_, ?_⟩
  · decide
  · decide
  · decide

/-- C2 (amended). `copyBufferToTexture` makes no check of the region against the
destination extents: for every region that does not lie within them, the call
returns an error exactly when `loadResources` fails or the source view cannot
be resolved, and otherwise returns no error and issues one draw of
`width * height * depth` (modulo `2 ^ 32`) points. -/
theorem copyBufferToTexture_region_unchecked (e : PixelTransfer11) (r : Renderer11)
    (tables : FormatTables) (unpack : PixelUnpackState) (offset : Nat)
    (destRenderTarget : RenderTarget11) (destinationFormat sourcePixelsType : GLenum)
    (destArea : gl.Box) (_hout : ¬ regionWithin destArea destRenderTarget.getExtents) :
    ((e.copyBufferToTexture r tables unpack offset destRenderTarget destinationFormat
        sourcePixelsType destArea).result.isError = true ↔
      ((e.loadResources r).result.isError = true ∨
        (sourceView tables unpack destinationFormat sourcePixelsType).error.isError = true)) ∧
    ((e.copyBufferToTexture r tables unpack offset destRenderTarget destinationFormat
        sourcePixelsType destArea).result.isError = false →
      (e.copyBufferToTexture r tables unpack offset destRenderTarget destinationFormat
        sourcePixelsType destArea).result = gl.NoError ∧
      draws (callsSince r (e.copyBufferToTexture r tables unpack offset destRenderTarget
        destinationFormat sourcePixelsType destArea).renderer)
        = [toUnsigned (destArea.width * destArea.height * destArea.depth)]) := by
  by_cases hl : (e.loadResources r).result.isError = true
  · have hf := PixelTransfer11.copyBufferToTexture_failure e r tables unpack offset
      destRenderTarget destinationFormat sourcePixelsType destArea (Or.inl hl)
    exact ⟨⟨fun _ => Or.inl hl, fun _ => hf.1⟩, fun h => absurd hf.1 (by simp [h])⟩
  · by_cases hs : (sourceView tables unpack destinationFormat sourcePixelsType).error.isError
        = true
    · have hf := PixelTransfer11.copyBufferToTexture_failure e r tables unpack offset
        destRenderTarget destinationFormat sourcePixelsType destArea (Or.inr hs)
      exact ⟨⟨fun _ => Or.inr hs, fun _ => hf.1⟩, fun h => absurd hf.1 (by simp [h])⟩
    · rw [Bool.not_eq_true] at hl hs
      have hok := PixelTransfer11.copyBufferToTexture_success e r tables unpack offset
        destRenderTarget destinationFormat sourcePixelsType destArea hl hs
      have hc := PixelTransfer11.copyBufferToTexture_callsSince e r tables unpack offset
        destRenderTarget destinationFormat sourcePixelsType destArea hl hs
      refine ⟨⟨fun h => ?_, fun h => ?_⟩, fun _ => ⟨hok.1, hc.1⟩⟩
      · rw [hok.1] at h; exact absurd h (by decide)
      · rcases h with h | h
        · rw [hl] at h; exact absurd h (by decide)
        · rw [hs] at h; exact absurd h (by decide)

/-- Witness for C2 (amended): the region with origin `x = 3` and width `2` in a
4 x 4 x 1 destination, on a fresh engine. -/
theorem copyBufferToTexture_region_unchecked_witness :
    draws (callsSince sampleRenderer (sampleEngine.copyBufferToTexture sampleRenderer
      sampleTables sampleUnpack 0 (sampleTarget 4 4 1) 0 0 ⟨3, 0, 0, 2, 1, 1⟩).renderer)
      = [toUnsigned (2 * 1 * 1)] :=
  ((copyBufferToTexture_region_unchecked sampleEngine sampleRenderer sampleTables
    sampleUnpack 0 (sampleTarget 4 4 1) 0 0 ⟨3, 0, 0, 2, 1, 1⟩
    (by decide)).2 (by decide)).2

theorem allocationCalls_append (a b : List Call) :
    allocationCalls (a ++ b) = allocationCalls a + allocationCalls b := by
  simp [allocationCalls, List.filter_append]

/-- A holder that holds an object resolves without touching the device. -/
theorem LazyResource2.resolveImpl_valid (l : LazyResource2) (r : Renderer11) (desc : Desc)
    (h : l.mResource.valid = true) :
    l.resolveImpl r desc = { result := gl.NoError, renderer := r, self := l } := by
  simp [LazyResource2.resolveImpl, h]

/-- On an empty holder `resolveImpl` calls the allocator once, returns its error
and keeps what it left in the holder. -/
theorem LazyResource2.resolveImpl_empty (l : LazyResource2) (r : Renderer11) (desc : Desc)
    (h : l.mResource.valid = false) :
    (l.resolveImpl r desc).result = (r.allocateResource desc l.mResource).result ∧
    (l.resolveImpl r desc).renderer = (r.allocateResource desc l.mResource).renderer ∧
    (l.resolveImpl r desc).self.mResource = (r.allocateResource desc l.mResource).self := by
  simp only [LazyResource2.resolveImpl, h, Bool.not_false, if_true]
  split_ifs with h1
  · exact ⟨rfl, rfl, rfl⟩
  · refine ⟨?_, rfl, rfl⟩
    rw [Renderer11.allocateResource_isError] at h1
    rw [Renderer11.allocateResource_result, if_neg h1]

theorem LazyResource2.resolveMany_valid (l : LazyResource2) (r : Renderer11) (desc : Desc)
    (h : l.mResource.valid = true) (n : Nat) :
    l.resolveMany r desc n = (List.replicate n (gl.NoError, l.get), r, l) := by
  induction n with
  | zero => rfl
  | succ n ih =>
    simp only [LazyResource2.resolveMany, LazyResource2.resolveImpl_valid l r desc h, ih,
      List.replicate_succ]

/-- C3. After one successful `resolveImpl`, any number `n` of further resolves with
the same descriptor all return no error, leave the device untouched (no
allocation), and `get()` returns the same, non-null object after each; if the
holder was empty before the first resolve, exactly one call to the device
allocator occurs across all of them. -/
theorem LazyResource2.resolveImpl_idempotent (l : LazyResource2) (r : Renderer11)
    (desc : Desc) (n : Nat) (hok : (l.resolveImpl r desc).result = gl.NoError) :
    (l.resolveImpl r desc).self.get.isSome = true ∧
    ((l.resolveImpl r desc).self.resolveMany (l.resolveImpl r desc).renderer desc n).1
      = List.replicate n (gl.NoError, (l.resolveImpl r desc).self.get) ∧
    ((l.resolveImpl r desc).self.resolveMany (l.resolveImpl r desc).renderer desc n).2.1
      = (l.resolveImpl r desc).renderer ∧
    ((l.resolveImpl r desc).self.resolveMany (l.resolveImpl r desc).renderer desc n).2.2.get
      = (l.resolveImpl r desc).self.get ∧
    (l.mResource.valid = false →
      allocationCalls
        ((l.resolveImpl r desc).self.resolveMany (l.resolveImpl r desc).renderer desc n).2.1.log
        = allocationCalls r.log + 1) := by
  have hvalid : (l.resolveImpl r desc).self.mResource.valid = true := by
    cases hv : l.mResource.valid
    · obtain ⟨h1, -, h3⟩ := LazyResource2.resolveImpl_empty l r desc hv
      rw [h1, Renderer11.allocateResource_result] at hok
      rw [h3, Renderer11.allocateResource_self]
      split_ifs at hok ⊢ with hc
      · exact absurd hok (by decide)
      · cases hcc : r.create.1
        · rw [hcc] at hc; exact absurd rfl hc
        · rfl
    · rw [LazyResource2.resolveImpl_valid l r desc hv]; exact hv
  have hmany := LazyResource2.resolveMany_valid _ (l.resolveImpl r desc).renderer desc hvalid n
  rw [hmany]
  refine ⟨hvalid, rfl, rfl, rfl, fun hv => ?_⟩
  obtain ⟨-, h2, -⟩ := LazyResource2.resolveImpl_empty l r desc hv
  simp only [h2, Renderer11.allocateResource_log, allocationCalls_append]
  rfl

/-- Witness for C3: a fresh holder on a device whose calls succeed, resolved once
and then five more times. -/
theorem LazyResource2.resolveImpl_idempotent_witness :
    allocationCalls
      ((LazyResource2.new.resolveImpl sampleRenderer (Desc.blendDesc 7)).self.resolveMany
        (LazyResource2.new.resolveImpl sampleRenderer (Desc.blendDesc 7)).renderer
        (Desc.blendDesc 7) 5).2.1.log
      = allocationCalls sampleRenderer.log + 1 :=
  (LazyResource2.resolveImpl_idempotent LazyResource2.new sampleRenderer (Desc.blendDesc 7) 5
    (by decide)).2.2.2.2 (by decide)

/-- C4. When the device allocator fails inside `resolveImpl` on an empty holder,
the allocator's error is returned to the caller and the holder is unchanged,
hence still empty; a later resolve calls the allocator again. -/
theorem LazyResource2.resolveImpl_failure (l : LazyResource2) (r : Renderer11) (desc : Desc)
    (hempty : l.mResource.valid = false)
    (hfail : (r.allocateResource desc l.mResource).result.isError = true) :
    (l.resolveImpl r desc).result = (r.allocateResource desc l.mResource).result ∧
    (l.resolveImpl r desc).result.isError = true ∧
    (l.resolveImpl r desc).self = l ∧
    (l.resolveImpl r desc).self.mResource.valid = false ∧
    (∀ r2 : Renderer11,
      allocationCalls ((l.resolveImpl r desc).self.resolveImpl r2 desc).renderer.log
        = allocationCalls r2.log + 1) := by
  obtain ⟨h1, h2, h3⟩ := LazyResource2.resolveImpl_empty l r desc hempty
  have hself : (l.resolveImpl r desc).self = l := by
    have : (l.resolveImpl r desc).self.mResource = l.mResource := by
      rw [h3, Renderer11.allocateResource_self]
      rw [Renderer11.allocateResource_isError] at hfail
      rw [if_pos hfail]
    cases hx : (l.resolveImpl r desc).self
    cases l
    simp_all
  refine ⟨h1, by rw [h1]; exact hfail, hself, by rw [hself]; exact hempty, fun r2 => ?_⟩
  rw [hself]
  obtain ⟨-, h2', -⟩ := LazyResource2.resolveImpl_empty l r2 desc hempty
  simp only [h2', Renderer11.allocateResource_log, allocationCalls_append]
  rfl

/-- Witness for C4: a fresh holder on a device whose first call fails. -/
theorem LazyResource2.resolveImpl_failure_witness :
    (LazyResource2.new.resolveImpl { outcomes := [false], nextHandle := 1, log := [] }
      (Desc.blendDesc 7)).self = LazyResource2.new :=
  (LazyResource2.resolveImpl_failure LazyResource2.new
    { outcomes := [false], nextHandle := 1, log := [] } (Desc.blendDesc 7)
    (by decide) (by decide)).2.2.1

theorem SharedData.destroyN_many (d : GenericData) (r : Renderer11) (n k : Nat) :
    (SharedData.destroyN { data := d, useCount := k + 1 + n } r n)
      = (r, { data := d, useCount := k + 1 }) := by
  induction n with
  | zero => rfl
  | succ n ih =>
    have h : ¬ (k + 1 + (n + 1) = 1) := by omega
    simp only [SharedData.destroyN, SharedData.destroyHandle, h, if_false]
    have h2 : k + 1 + (n + 1) - 1 = k + 1 + n := by omega
    rw [h2]; exact ih

theorem SharedData.copyN_count (s : SharedData) (n : Nat) :
    s.copyN n = { data := s.data, useCount := s.useCount + n } := by
  induction n generalizing s with
  | zero => rfl
  | succ n ih =>
    simp only [SharedData.copyN, ih, SharedData.copy]
    congr 1; omega

/-- C5. One handle of a texture is copied `n` times, so that `n + 1` handles share
one `GenericData`, and then all handles are destroyed. Destroying the first `n`
handles makes no call; destroying the last runs `~GenericData` once: with an
object and a manager the calls are `onReleaseResource(resourceType, object)`
followed by the object's `Release`, each once; with an object and no manager
`Release` alone, once; with no object, nothing. -/
theorem GenericData.released_once (d : GenericData) (r : Renderer11) (n : Nat) :
    (SharedData.destroyN ((SharedData.mk d 1).copyN n) r n).1 = r ∧
    (SharedData.destroyN ((SharedData.mk d 1).copyN n) r (n + 1)).1.log = r.log ++
      (match d.object, d.manager with
        | some obj, some m => [Call.onReleaseResource m d.resourceType obj, Call.Release obj]
        | some obj, none => [Call.Release obj]
        | none, _ => []) ∧
    (SharedData.destroyN ((SharedData.mk d 1).copyN n) r (n + 1)).2.useCount = 0 := by
  have hstep : ∀ m, SharedData.destroyN { data := d, useCount := 0 + 1 + n } r (n + m)
      = SharedData.destroyN { data := d, useCount := 0 + 1 } r m := by
    intro m
    induction n with
    | zero => simp
    | succ n ih =>
      have h : ¬ (0 + 1 + (n + 1) = 1) := by omega
      have h2 : 0 + 1 + (n + 1) - 1 = 0 + 1 + n := by omega
      have h3 : n + 1 + m = (n + m) + 1 := by omega
      rw [h3]
      simp only [SharedData.destroyN, SharedData.destroyHandle, h, if_false, h2]
      exact ih
  have hc : (SharedData.mk d 1).copyN n = { data := d, useCount := 0 + 1 + n } := by
    rw [SharedData.copyN_count]
  rw [hc]
  refine ⟨?_, ?_, ?_⟩
  · rw [SharedData.destroyN_many d r n 0]
  · rw [hstep 1]
    rcases d with ⟨t, _ | obj, _ | m⟩ <;>
      simp [SharedData.destroyN, SharedData.destroyHandle, GenericData.destructor,
        Renderer11.emit]
  · rw [hstep 1]
    rcases d with ⟨t, _ | obj, _ | m⟩ <;>
      simp [SharedData.destroyN, SharedData.destroyHandle, GenericData.destructor,
        Renderer11.emit]

theorem PixelTransfer11.loadResourcesN_loaded (e : PixelTransfer11) (r : Renderer11)
    (h : e.mResourcesLoaded = true) (n : Nat) :
    e.loadResourcesN r n = (List.replicate n gl.NoError, r, e) := by
  induction n with
  | zero => rfl
  | succ n ih =>
    simp only [PixelTransfer11.loadResourcesN, PixelTransfer11.loadResources_loaded e r h, ih,
      List.replicate_succ]

theorem PixelTransfer11.copyBufferToTexture_loaded (e : PixelTransfer11) (r : Renderer11)
    (tables : FormatTables) (unpack : PixelUnpackState) (offset : Nat)
    (destRenderTarget : RenderTarget11) (destinationFormat sourcePixelsType : GLenum)
    (destArea : gl.Box) (h : e.mResourcesLoaded = true) :
    (e.copyBufferToTexture r tables unpack offset destRenderTarget destinationFormat
      sourcePixelsType destArea).self.mResourcesLoaded = true := by
  simp only [PixelTransfer11.copyBufferToTexture, PixelTransfer11.loadResources_loaded e r h]
  split_ifs <;> exact h

theorem PixelTransfer11.Later.loaded {e0 e : PixelTransfer11} (h : PixelTransfer11.Later e0 e)
    (h0 : e0.mResourcesLoaded = true) : e.mResourcesLoaded = true := by
  induction h with
  | now => exact h0
  | loadResources e r _ ih => rw [PixelTransfer11.loadResources_loaded e r ih]; exact ih
  | copyBufferToTexture e r t u o d f s a _ ih =>
    exact PixelTransfer11.copyBufferToTexture_loaded e r t u o d f s a ih

/-- C6. Once `loadResources` has returned no error, the resources are loaded, and
in every later state of the engine (after any further calls of `loadResources`
and `copyBufferToTexture`) a call of `loadResources` is a no-op: on any
renderer, `n` calls in a row all return no error, make no native call (the
renderer, log included, is unchanged) and leave every field of the engine
unchanged. -/
theorem PixelTransfer11.loadResources_idempotent (e : PixelTransfer11) (r : Renderer11)
    (hok : (e.loadResources r).result = gl.NoError)
    (e2 : PixelTransfer11) (hlater : PixelTransfer11.Later (e.loadResources r).self e2)
    (r2 : Renderer11) (n : Nat) :
    (e.loadResources r).self.mResourcesLoaded = true ∧
    e2.loadResources r2 = { result := gl.NoError, renderer := r2, self := e2 } ∧
    e2.loadResourcesN r2 n = (List.replicate n gl.NoError, r2, e2) := by
  have hl : (e.loadResources r).self.mResourcesLoaded = true :=
    PixelTransfer11.loadResources_noError e r (by rw [hok]; rfl)
  have h2 := hlater.loaded hl
  exact ⟨hl, PixelTransfer11.loadResources_loaded e2 r2 h2,
    PixelTransfer11.loadResourcesN_loaded e2 r2 h2 n⟩

/-- Witness for C6: a fresh engine on a device whose calls succeed; the later
state is the one after a transfer. -/
theorem PixelTransfer11.loadResources_idempotent_witness :
    ((sampleEngine.loadResources sampleRenderer).self.copyBufferToTexture sampleRenderer
        sampleTables sampleUnpack 0 (sampleTarget 4 4 1) 0 0
        ⟨0, 0, 0, 2, 2, 1⟩).self.loadResourcesN sampleRenderer 3
      = (List.replicate 3 gl.NoError, sampleRenderer,
          ((sampleEngine.loadResources sampleRenderer).self.copyBufferToTexture sampleRenderer
            sampleTables sampleUnpack 0 (sampleTarget 4 4 1) 0 0 ⟨0, 0, 0, 2, 2, 1⟩).self) :=
  (PixelTransfer11.loadResources_idempotent sampleEngine sampleRenderer (by decide) _
    (PixelTransfer11.Later.copyBufferToTexture _ sampleRenderer sampleTables sampleUnpack 0
      (sampleTarget 4 4 1) 0 0 ⟨0, 0, 0, 2, 2, 1⟩ PixelTransfer11.Later.now)
    sampleRenderer 3).2.2

theorem callsSince_self (r : Renderer11) : callsSince r r = [] := by
  simp [callsSince]

/-- C7. For an engine in a state the code can produce: if a creation step of a
`loadResources` call fails, the call returns an error and `mResourcesLoaded` is
false after it; `mResourcesLoaded` is true after a call exactly when it was
true before (an earlier call succeeded) or all eight creation steps of this
call succeeded; the call returns an error exactly when `mResourcesLoaded` is
false after it; and while it is false the next call attempts creation again. -/
theorem PixelTransfer11.loadResources_failure (e : PixelTransfer11) (r : Renderer11)
    (he : e.Reachable) :
    (someCreationFailed (callsSince r (e.loadResources r).renderer) →
      (e.loadResources r).result.isError = true ∧
      (e.loadResources r).self.mResourcesLoaded = false) ∧
    ((e.loadResources r).self.mResourcesLoaded = true ↔
      (e.mResourcesLoaded = true ∨ allCreated 8 (callsSince r (e.loadResources r).renderer))) ∧
    ((e.loadResources r).result.isError = true ↔
      (e.loadResources r).self.mResourcesLoaded = false) ∧
    ((e.loadResources r).self.mResourcesLoaded = false →
      ∀ r2 : Renderer11,
        callsSince r2 ((e.loadResources r).self.loadResources r2).renderer ≠ []) := by
  have hinv := he.inv
  have hnext : (e.loadResources r).self.mResourcesLoaded = false →
      ∀ r2 : Renderer11,
        callsSince r2 ((e.loadResources r).self.loadResources r2).renderer ≠ [] :=
    fun h r2 => (PixelTransfer11.loadResources_unloaded _ r2
      (PixelTransfer11.Inv_loadResources e r hinv) h).2.2.1
  refine ⟨?_, ?_, ?_, hnext⟩
  all_goals
    cases hl : e.mResourcesLoaded
    · obtain ⟨-, -, -, -, hd⟩ := PixelTransfer11.loadResources_unloaded e r hinv hl
      rcases hd with ⟨h1, h2, -, h4⟩ | ⟨h1, h2, h3⟩
      · have hnf : ¬ someCreationFailed (callsSince r (e.loadResources r).renderer) := by
          intro hf
          have := List.all_eq_true.1 h4.2 _ hf
          simp at this
        simp [h1, h2, h4, hnf, gl.NoError, gl.Error.isError, GL_NO_ERROR]
      · have hna : ¬ allCreated 8 (callsSince r (e.loadResources r).renderer) := by
          intro ha
          have := List.all_eq_true.1 ha.2 _ h3
          simp at this
        simp [h1, h2, h3, hna, gl.Error.isError, GL_NO_ERROR, GL_OUT_OF_MEMORY]
    · rw [PixelTransfer11.loadResources_loaded e r hl]
      simp [hl, callsSince_self, someCreationFailed, creations, gl.NoError, gl.Error.isError,
        GL_NO_ERROR]

/-- Witness for C7: on a fresh engine the vertex shader creation, the fourth
step, fails. -/
theorem PixelTransfer11.loadResources_failure_witness :
    (sampleEngine.loadResources
        { outcomes := [true, true, true, false], nextHandle := 1, log := [] }).result.isError
      = true ∧
    (sampleEngine.loadResources
        { outcomes := [true, true, true, false], nextHandle := 1, log := [] }).self.mResourcesLoaded
      = false :=
  (PixelTransfer11.loadResources_failure sampleEngine
    { outcomes := [true, true, true, false], nextHandle := 1, log := [] }
    (PixelTransfer11.Reachable.new _)).1 (by decide)

/-- C8 (the code at the failing input). In the retry scenario the first
`loadResources` fails and the second succeeds; the vertex shader is created
twice, as objects 4 and 8; the destructor releases object 8 once and object 4,
overwritten by the second call, is never released. -/
theorem loadResources_retry_leaks :
    retryScenario.1.isError = true ∧
    retryScenario.2.1 = gl.NoError ∧
    Call.CreateVertexShader ShaderBlob.g_VS_BufferToTexture (some 4) ∈ retryScenario.2.2.log ∧
    Call.CreateVertexShader ShaderBlob.g_VS_BufferToTexture (some 8) ∈ retryScenario.2.2.log ∧
    releaseCount retryScenario.2.2.log 8 = 1 ∧
    releaseCount retryScenario.2.2.log 4 = 0 := by
  decide

/-- A `copyBufferToTexture` that returns no error got past `loadResources` and the
source view. -/
theorem PixelTransfer11.copyBufferToTexture_noError (e : PixelTransfer11) (r : Renderer11)
    (tables : FormatTables) (unpack : PixelUnpackState) (offset : Nat)
    (destRenderTarget : RenderTarget11) (destinationFormat sourcePixelsType : GLenum)
    (destArea : gl.Box)
    (hok : (e.copyBufferToTexture r tables unpack offset destRenderTarget destinationFormat
      sourcePixelsType destArea).result.isError = false) :
    (e.loadResources r).result.isError = false ∧
    (sourceView tables unpack destinationFormat sourcePixelsType).error.isError = false := by
  constructor
  · by_contra h
    rw [Bool.not_eq_false] at h
    have := (PixelTransfer11.copyBufferToTexture_failure e r tables unpack offset
      destRenderTarget destinationFormat sourcePixelsType destArea (Or.inl h)).1
    rw [hok] at this
    exact absurd this (by decide)
  · by_contra h
    rw [Bool.not_eq_false] at h
    have := (PixelTransfer11.copyBufferToTexture_failure e r tables unpack offset
      destRenderTarget destinationFormat sourcePixelsType destArea (Or.inr h)).1
    rw [hok] at this
    exact absurd this (by decide)

/-- C9. For an engine in a state the code can produce, a `copyBufferToTexture`
that returns no error binds the geometry stage exactly once: to the engine's
geometry shader, which is not null, if the destination depth is greater than
`1`, and to null otherwise (depth `1` omits it, depth `2` binds it). The
binding is the same for every region, whatever its depth. -/
theorem copyBufferToTexture_geometry_stage (e : PixelTransfer11) (r : Renderer11)
    (tables : FormatTables) (unpack : PixelUnpackState) (offset : Nat)
    (destRenderTarget : RenderTarget11) (destinationFormat sourcePixelsType : GLenum)
    (destArea : gl.Box) (he : e.Reachable)
    (hok : (e.copyBufferToTexture r tables unpack offset destRenderTarget destinationFormat
      sourcePixelsType destArea).result.isError = false) :
    ∃ gs : Handle,
      (e.copyBufferToTexture r tables unpack offset destRenderTarget destinationFormat
        sourcePixelsType destArea).self.mBufferToTextureGS = some gs ∧
      geometryBindings (callsSince r (e.copyBufferToTexture r tables unpack offset
        destRenderTarget destinationFormat sourcePixelsType destArea).renderer)
        = [if destRenderTarget.getExtents.depth > 1 then some gs else none] ∧
      (destRenderTarget.getExtents.depth = 1 →
        geometryBindings (callsSince r (e.copyBufferToTexture r tables unpack offset
          destRenderTarget destinationFormat sourcePixelsType destArea).renderer) = [none]) ∧
      (destRenderTarget.getExtents.depth = 2 →
        geometryBindings (callsSince r (e.copyBufferToTexture r tables unpack offset
          destRenderTarget destinationFormat sourcePixelsType destArea).renderer)
          = [some gs]) ∧
      (∀ destArea2 : gl.Box,
        geometryBindings (callsSince r (e.copyBufferToTexture r tables unpack offset
          destRenderTarget destinationFormat sourcePixelsType destArea2).renderer)
          = [if destRenderTarget.getExtents.depth > 1 then some gs else none]) := by
  obtain ⟨hl, hs⟩ := PixelTransfer11.copyBufferToTexture_noError e r tables unpack offset
    destRenderTarget destinationFormat sourcePixelsType destArea hok
  have hloaded := PixelTransfer11.loadResources_noError e r hl
  have hinv := PixelTransfer11.Inv_loadResources e r he.inv
  have hgs := (hinv.2 hloaded).2.1
  obtain ⟨gs, hgs⟩ := Option.isSome_iff_exists.1 hgs
  have hself := (PixelTransfer11.copyBufferToTexture_success e r tables unpack offset
    destRenderTarget destinationFormat sourcePixelsType destArea hl hs).2.1
  have hb : ∀ destArea2 : gl.Box,
      geometryBindings (callsSince r (e.copyBufferToTexture r tables unpack offset
        destRenderTarget destinationFormat sourcePixelsType destArea2).renderer)
        = [if destRenderTarget.getExtents.depth > 1 then some gs else none] := by
    intro destArea2
    rw [(PixelTransfer11.copyBufferToTexture_callsSince e r tables unpack offset
      destRenderTarget destinationFormat sourcePixelsType destArea2 hl hs).2, hgs]
  refine ⟨gs, ?_, hb destArea, ?_, ?_, hb⟩
  · rw [hself]; exact hgs
  · intro h1; rw [hb destArea, h1]; rfl
  · intro h2; rw [hb destArea, h2]; rfl

/-- Witness for C9: a fresh engine, a device whose calls succeed, and a
destination of depth 2; the geometry shader is object 5. -/
theorem copyBufferToTexture_geometry_stage_witness :
    geometryBindings (callsSince sampleRenderer (sampleEngine.copyBufferToTexture
      sampleRenderer sampleTables sampleUnpack 0 (sampleTarget 4 4 2) 0 0
      ⟨0, 0, 0, 2, 2, 1⟩).renderer) = [some 5] := by
  obtain ⟨gs, h1, -, -, h4, -⟩ := copyBufferToTexture_geometry_stage sampleEngine
    sampleRenderer sampleTables sampleUnpack 0 (sampleTarget 4 4 2) 0 0 ⟨0, 0, 0, 2, 2, 1⟩
    (PixelTransfer11.Reachable.new _) (by decide)
  have h5 : (sampleEngine.copyBufferToTexture sampleRenderer sampleTables sampleUnpack 0
      (sampleTarget 4 4 2) 0 0 ⟨0, 0, 0, 2, 2, 1⟩).self.mBufferToTextureGS = some 5 := by
    decide
  rw [h5] at h1
  cases h1
  exact h4 rfl

/-- C10 (counterexample). The region that covers a 2048 x 2048 x 2048 destination
lies within it and has `8589934592` points; the transfer returns no error and
its one draw has a point count of `0`. -/
theorem pointCount_wraps_for_full_volume :
    regionWithin ⟨0, 0, 0, 2048, 2048, 2048⟩ (sampleTarget 2048 2048 2048).getExtents ∧
    (2048 * 2048 * 2048 : Int) = 8589934592 ∧
    (sampleEngine.copyBufferToTexture sampleRenderer sampleTables sampleUnpack 0
      (sampleTarget 2048 2048 2048) 0 0 ⟨0, 0, 0, 2048, 2048, 2048⟩).result = gl.NoError ∧
    draws (callsSince sampleRenderer (sampleEngine.copyBufferToTexture sampleRenderer
      sampleTables sampleUnpack 0 (sampleTarget 2048 2048 2048) 0 0
      ⟨0, 0, 0, 2048, 2048, 2048⟩).renderer) = [0] := by
  refine ⟨?_, ?_, ?_, ?_⟩
  · decide
  · decide
  · decide
  · decide

/-- C10 (amended). For every region lying within the destination extents, a
`copyBufferToTexture` that returns no error issues exactly one draw, whose point
count is `width * height * depth` reduced modulo `2 ^ 32`; it equals the
mathematical product whenever that product is not negative and below `2 ^ 32`.
A call that returns an error issues no draw. -/
theorem copyBufferToTexture_point_count (e : PixelTransfer11) (r : Renderer11)
    (tables : FormatTables) (unpack : PixelUnpackState) (offset : Nat)
    (destRenderTarget : RenderTarget11) (destinationFormat sourcePixelsType : GLenum)
    (destArea : gl.Box) (_hin : regionWithin destArea destRenderTarget.getExtents) :
    ((e.copyBufferToTexture r tables unpack offset destRenderTarget destinationFormat
        sourcePixelsType destArea).result.isError = false →
      draws (callsSince r (e.copyBufferToTexture r tables unpack offset destRenderTarget
        destinationFormat sourcePixelsType destArea).renderer)
        = [(destArea.width * destArea.height * destArea.depth % 2 ^ 32).toNat] ∧
      (0 ≤ destArea.width * destArea.height * destArea.depth →
        destArea.width * destArea.height * destArea.depth < 2 ^ 32 →
        draws (callsSince r (e.copyBufferToTexture r tables unpack offset destRenderTarget
          destinationFormat sourcePixelsType destArea).renderer)
          = [(destArea.width * destArea.height * destArea.depth).toNat])) ∧
    ((e.copyBufferToTexture r tables unpack offset destRenderTarget destinationFormat
        sourcePixelsType destArea).result.isError = true →
      draws (callsSince r (e.copyBufferToTexture r tables unpack offset destRenderTarget
        destinationFormat sourcePixelsType destArea).renderer) = []) := by
  constructor
  · intro hok
    obtain ⟨hl, hs⟩ := PixelTransfer11.copyBufferToTexture_noError e r tables unpack offset
      destRenderTarget destinationFormat sourcePixelsType destArea hok
    have hd := (PixelTransfer11.copyBufferToTexture_callsSince e r tables unpack offset
      destRenderTarget destinationFormat sourcePixelsType destArea hl hs).1
    refine ⟨by rw [hd]; rfl, fun h0 h1 => ?_⟩
    rw [hd]
    unfold toUnsigned UINT_RANGE
    rw [Int.emod_eq_of_lt h0 (by exact_mod_cast h1)]
  · intro herr
    have hnot : ¬ ((e.loadResources r).result.isError = false ∧
        (sourceView tables unpack destinationFormat sourcePixelsType).error.isError = false) := by
      rintro ⟨hl, hs⟩
      have := (PixelTransfer11.copyBufferToTexture_success e r tables unpack offset
        destRenderTarget destinationFormat sourcePixelsType destArea hl hs).1
      rw [this] at herr
      exact absurd herr (by decide)
    have hor : (e.loadResources r).result.isError = true ∨
        (sourceView tables unpack destinationFormat sourcePixelsType).error.isError = true := by
      by_cases hl : (e.loadResources r).result.isError = true
      · exact Or.inl hl
      · right
        by_contra hs
        exact hnot ⟨by simpa using hl, by simpa using hs⟩
    rw [(PixelTransfer11.copyBufferToTexture_failure e r tables unpack offset
      destRenderTarget destinationFormat sourcePixelsType destArea hor).2.1]
    exact draws_of_creations _ (PixelTransfer11.loadResources_createsOnly e r).calls.2

/-- Witness for C10 (amended): a 3 x 2 x 1 region in a 4 x 4 x 1 destination. -/
theorem copyBufferToTexture_point_count_witness :
    draws (callsSince sampleRenderer (sampleEngine.copyBufferToTexture sampleRenderer
      sampleTables sampleUnpack 0 (sampleTarget 4 4 1) 0 0 ⟨0, 1, 0, 3, 2, 1⟩).renderer)
      = [(3 * 2 * 1 : Int).toNat] :=
  ((copyBufferToTexture_point_count sampleEngine sampleRenderer sampleTables sampleUnpack 0
    (sampleTarget 4 4 1) 0 0 ⟨0, 1, 0, 3, 2, 1⟩ (by decide)).1
    (by decide)).2 (by decide) (by decide)

/-- C13. The function `isDeviceLostError` returns `true` exactly for the five
status codes device-hung, device-removed, device-reset, driver-internal-error
and not-currently-available; for every other code it returns `false`, and
success and out-of-memory are among the others. -/
theorem isDeviceLostError_iff (errorCode : HRESULT) :
    (d3d11.isDeviceLostError errorCode = true ↔
      (errorCode = DXGI_ERROR_DEVICE_HUNG ∨ errorCode = DXGI_ERROR_DEVICE_REMOVED ∨
        errorCode = DXGI_ERROR_DEVICE_RESET ∨ errorCode = DXGI_ERROR_DRIVER_INTERNAL_ERROR ∨
        errorCode = DXGI_ERROR_NOT_CURRENTLY_AVAILABLE)) ∧
    ((errorCode ≠ DXGI_ERROR_DEVICE_HUNG ∧ errorCode ≠ DXGI_ERROR_DEVICE_REMOVED ∧
        errorCode ≠ DXGI_ERROR_DEVICE_RESET ∧ errorCode ≠ DXGI_ERROR_DRIVER_INTERNAL_ERROR ∧
        errorCode ≠ DXGI_ERROR_NOT_CURRENTLY_AVAILABLE) →
      d3d11.isDeviceLostError errorCode = false) ∧
    d3d11.isDeviceLostError S_OK = false ∧
    d3d11.isDeviceLostError E_OUTOFMEMORY = false := by
  refine ⟨?_, ?_, by decide, by decide⟩
  · unfold d3d11.isDeviceLostError
    split_ifs <;> simp_all
  · rintro ⟨h1, h2, h3, h4, h5⟩
    simp [d3d11.isDeviceLostError, h1, h2, h3, h4, h5]

/-- Witness for C13: the status `E_FAIL` (bit pattern `0x80004005`) is none of the
five codes. -/
theorem isDeviceLostError_iff_witness :
    d3d11.isDeviceLostError (0x80004005 - 2 ^ 32) = false :=
  (isDeviceLostError_iff (0x80004005 - 2 ^ 32)).2.1
    ⟨by decide, by decide, by decide, by decide, by decide⟩

theorem GenerateWorkarounds_fold (knownBad : List KnownBadConfiguration)
    (fingerprint : DeviceFingerprint) (w : WorkaroundsD3D)
    (h : ∀ c ∈ knownBad, c.applies fingerprint = false) :
    knownBad.foldl
      (fun w c => if c.applies fingerprint then w.enable c.enables else w) w = w := by
  induction knownBad generalizing w with
  | nil => rfl
  | cons c cs ih =>
    have hc : c.applies fingerprint = false := h c (List.mem_cons_self _ _)
    simp only [List.foldl_cons, hc, Bool.false_eq_true, if_false]
    exact ih w (fun c' hc' => h c' (List.mem_cons_of_mem _ hc'))

/-- C14. The default `WorkaroundsD3D` has all six flags false and the default
`D3DCompilerWorkarounds` has all three flags false; for a fingerprint that
matches no known-bad configuration `GenerateWorkarounds` returns the default
value, so it enables no flag. -/
theorem GenerateWorkarounds_unknown (knownBad : List KnownBadConfiguration)
    (fingerprint : DeviceFingerprint)
    (h : ∀ c ∈ knownBad, c.applies fingerprint = false) :
    WorkaroundsD3D.new.mrtPerfWorkaround = false ∧
    WorkaroundsD3D.new.setDataFasterThanImageUpload = false ∧
    WorkaroundsD3D.new.zeroMaxLodWorkaround = false ∧
    WorkaroundsD3D.new.useInstancedPointSpriteEmulation = false ∧
    WorkaroundsD3D.new.depthStencilBlitExtraCopy = false ∧
    WorkaroundsD3D.new.expandIntegerPowExpressions = false ∧
    D3DCompilerWorkarounds.new.skipOptimization = false ∧
    D3DCompilerWorkarounds.new.useMaxOptimization = false ∧
    D3DCompilerWorkarounds.new.enableIEEEStrictness = false ∧
    d3d11.GenerateWorkarounds knownBad fingerprint = WorkaroundsD3D.new ∧
    (d3d11.GenerateWorkarounds knownBad fingerprint).mrtPerfWorkaround = false ∧
    (d3d11.GenerateWorkarounds knownBad fingerprint).setDataFasterThanImageUpload = false ∧
    (d3d11.GenerateWorkarounds knownBad fingerprint).zeroMaxLodWorkaround = false ∧
    (d3d11.GenerateWorkarounds knownBad fingerprint).useInstancedPointSpriteEmulation = false ∧
    (d3d11.GenerateWorkarounds knownBad fingerprint).depthStencilBlitExtraCopy = false ∧
    (d3d11.GenerateWorkarounds knownBad fingerprint).expandIntegerPowExpressions = false := by
  have hg : d3d11.GenerateWorkarounds knownBad fingerprint = WorkaroundsD3D.new :=
    GenerateWorkarounds_fold knownBad fingerprint _ h
  rw [hg]
  exact ⟨rfl, rfl, rfl, rfl, rfl, rfl, rfl, rfl, rfl, rfl, rfl, rfl, rfl, rfl, rfl, rfl⟩

/-- Witness for C14: a table with one known-bad configuration, for vendor
`0x10DE`, and a device of vendor `0x1234`. -/
theorem GenerateWorkarounds_unknown_witness :
    d3d11.GenerateWorkarounds
      [{ applies := fun f => f.vendorId == 0x10DE
         enables := { WorkaroundsD3D.new with depthStencilBlitExtraCopy := true } }]
      { vendorId := 0x1234, deviceId := 1, driverVersion := 7, featureLevel := 11 }
      = WorkaroundsD3D.new :=
  (GenerateWorkarounds_unknown
    [{ applies := fun f => f.vendorId == 0x10DE
       enables := { WorkaroundsD3D.new with depthStencilBlitExtraCopy := true } }]
    { vendorId := 0x1234, deviceId := 1, driverVersion := 7, featureLevel := 11 }
    (by simp)).2.2.2.2.2.2.2.2.2.1

/-- C15 (counterexample). A wrapper that holds object 1 with manager 9 is valid;
`set` with object 2 on it reports no error (it returns nothing): afterwards the
wrapper holds object 2 with no manager. -/
theorem TextureHelper11_set_on_populated :
    sampleTexture.valid = true ∧
    (sampleTexture.set (some 2) 5 (TextureDesc.D3D11_TEXTURE2D_DESC 8 8 1)).mData.object
      = some 2 ∧
    (sampleTexture.set (some 2) 5 (TextureDesc.D3D11_TEXTURE2D_DESC 8 8 1)).mData.manager
      = none := by
  decide

/-- C15 (amended). `TextureHelper11::set` returns nothing and makes no run-time
check (that the wrapper holds nothing is only an `ASSERT`): on every wrapper,
populated or empty, it stores the given object with no manager and the given
format, and derives the metadata from the descriptor of the object; so on a
populated wrapper the object held before is replaced. -/
theorem TextureHelper11_set_unchecked (t : TextureHelper11) (object : Option Handle)
    (format : Nat) (desc : TextureDesc) :
    (t.set object format desc).mData.object = object ∧
    (t.set object format desc).mData.manager = none ∧
    (t.set object format desc).mFormatSet = some format ∧
    (t.set object format desc).valid = object.isSome ∧
    t.set object format desc
      = ({ t with mData := { t.mData with object := object, manager := none },
                  mFormatSet := some format } : TextureHelper11).initDesc desc := by
  cases desc <;> exact ⟨rfl, rfl, rfl, rfl, rfl⟩

/-- C16. `TextureHelper11::init` exchanges ownership with the resource passed in:
afterwards this wrapper holds the object and manager the argument held before,
the argument holds the object and manager this wrapper held before, and the
multiset of owned (object, manager) pairs across the two is unchanged. -/
theorem TextureHelper11_init_exchanges (t : TextureHelper11) (texture : TypedData)
    (desc : TextureDesc) (format : Nat) :
    (t.init texture desc format).1.mData.object = texture.object ∧
    (t.init texture desc format).1.mData.manager = texture.manager ∧
    (t.init texture desc format).2.object = t.mData.object ∧
    (t.init texture desc format).2.manager = t.mData.manager ∧
    (t.init texture desc format).1.owned = texture.owned ∧
    (t.init texture desc format).2.owned = t.owned ∧
    ({(t.init texture desc format).1.owned, (t.init texture desc format).2.owned} :
        Multiset (Option Handle × Option Handle))
      = {t.owned, texture.owned} := by
  have h1 : (t.init texture desc format).1.owned = texture.owned := by cases desc <;> rfl
  have h2 : (t.init texture desc format).2.owned = t.owned := rfl
  refine ⟨?_, ?_, rfl, rfl, h1, h2, ?_⟩
  · cases desc <;> rfl
  · cases desc <;> rfl
  · rw [h1, h2]; exact Multiset.pair_comm _ _

/-- The function `setBufferToTextureCopyParams` does not read the prior contents
of its out-parameter. -/
theorem setBufferToTextureCopyParamsOut_eq (parametersOut : CopyShaderParams)
    (destArea : gl.Box) (destSize : gl.Extents) (bytesPerPixel : Nat)
    (alignment rowLength : Int) (offset : Nat) :
    setBufferToTextureCopyParamsOut parametersOut destArea destSize bytesPerPixel alignment
      rowLength offset
      = setBufferToTextureCopyParams destArea destSize bytesPerPixel alignment rowLength
          offset := rfl

/-- C19. The output of `setBufferToTextureCopyParams` is the same whatever the
out-parameter held before (and the function takes no engine state); its integer
fields are `FirstSlice` = region z origin, `RowsPerSlice` = region height and
`PixelsPerRow` = `rowLength` when `rowLength > 0` and region width otherwise
(both as converted to `unsigned int`, which leaves every value from `0` to
`2 ^ 32 - 1` unchanged), and `FirstPixelOffset` = `offset / bytesPerPixel`. -/
theorem setBufferToTextureCopyParams_fields (prior1 prior2 : CopyShaderParams)
    (destArea : gl.Box) (destSize : gl.Extents) (bytesPerPixel : Nat)
    (alignment rowLength : Int) (offset : Nat) :
    setBufferToTextureCopyParamsOut prior1 destArea destSize bytesPerPixel alignment rowLength
        offset
      = setBufferToTextureCopyParamsOut prior2 destArea destSize bytesPerPixel alignment
          rowLength offset ∧
    (setBufferToTextureCopyParamsOut prior1 destArea destSize bytesPerPixel alignment rowLength
        offset).FirstSlice = destArea.z ∧
    (setBufferToTextureCopyParamsOut prior1 destArea destSize bytesPerPixel alignment rowLength
        offset).RowsPerSlice = toUnsigned destArea.height ∧
    (setBufferToTextureCopyParamsOut prior1 destArea destSize bytesPerPixel alignment rowLength
        offset).PixelsPerRow
      = toUnsigned (if rowLength > 0 then rowLength else destArea.width) ∧
    (setBufferToTextureCopyParamsOut prior1 destArea destSize bytesPerPixel alignment rowLength
        offset).FirstPixelOffset = offset / bytesPerPixel ∧
    (∀ v : Int, 0 ≤ v → v < 2 ^ 32 → (toUnsigned v : Int) = v) := by
  refine ⟨rfl, rfl, rfl, rfl, rfl, fun v h0 h1 => ?_⟩
  unfold toUnsigned UINT_RANGE
  rw [Int.emod_eq_of_lt h0 (by exact_mod_cast h1)]
  exact Int.toNat_of_nonneg h0

/-- Witness for C19: a height of 3 is unchanged by the conversion. -/
theorem setBufferToTextureCopyParams_fields_witness : (toUnsigned 3 : Int) = 3 :=
  (setBufferToTextureCopyParams_fields CopyShaderParams.zero CopyShaderParams.zero
    ⟨0, 0, 0, 3, 3, 1⟩ ⟨4, 4, 1⟩ 4 4 0 0).2.2.2.2.2 3 (by decide) (by decide)

theorem half_texel_bounds (n : Int) (hn : 2 ≤ n) :
    (0 : ℚ) < (1 / 2) / ((n - 1 : Int) : ℚ) ∧
    (1 / 2) / ((n - 1 : Int) : ℚ) < 2 / (n : ℚ) := by
  have h1 : (0 : ℚ) < ((n - 1 : Int) : ℚ) := by
    have : (0 : Int) < n - 1 := by omega
    exact_mod_cast this
  have h2 : (0 : ℚ) < (n : ℚ) := by
    have : (0 : Int) < n := by omega
    exact_mod_cast this
  have h3 : ((n - 1 : Int) : ℚ) = (n : ℚ) - 1 := by push_cast; ring
  have h4 : (2 : ℚ) ≤ (n : ℚ) := by exact_mod_cast hn
  constructor
  · positivity
  · rw [div_lt_div_iff₀ h1 h2, h3]
    nlinarith

/-- C20. Reading the float fields as exact rationals: for a destination of width
`W >= 2` and height `H >= 2`, a region of origin `(x, y)` and any column index
`i` and row index `j` (in particular those inside the region),
`2(x+i)/W - 1 < PositionOffset[0] + i * PositionScale[0] < 2(x+i+1)/W - 1` and
`1 - 2(y+j+1)/H < PositionOffset[1] + j * PositionScale[1] < 1 - 2(y+j)/H`. -/
theorem setBufferToTextureCopyParams_position (destArea : gl.Box) (destSize : gl.Extents)
    (bytesPerPixel : Nat) (alignment rowLength : Int) (offset : Nat) (i j : Int)
    (hW : 2 ≤ destSize.width) (hH : 2 ≤ destSize.height) :
    (2 * ((destArea.x + i : Int) : ℚ) / (destSize.width : ℚ) - 1
      < (setBufferToTextureCopyParams destArea destSize bytesPerPixel alignment rowLength
            offset).PositionOffset.1
          + (i : ℚ) * (setBufferToTextureCopyParams destArea destSize bytesPerPixel alignment
            rowLength offset).PositionScale.1) ∧
    ((setBufferToTextureCopyParams destArea destSize bytesPerPixel alignment rowLength
            offset).PositionOffset.1
          + (i : ℚ) * (setBufferToTextureCopyParams destArea destSize bytesPerPixel alignment
            rowLength offset).PositionScale.1
      < 2 * ((destArea.x + i + 1 : Int) : ℚ) / (destSize.width : ℚ) - 1) ∧
    (1 - 2 * ((destArea.y + j + 1 : Int) : ℚ) / (destSize.height : ℚ)
      < (setBufferToTextureCopyParams destArea destSize bytesPerPixel alignment rowLength
            offset).PositionOffset.2
          + (j : ℚ) * (setBufferToTextureCopyParams destArea destSize bytesPerPixel alignment
            rowLength offset).PositionScale.2) ∧
    ((setBufferToTextureCopyParams destArea destSize bytesPerPixel alignment rowLength
            offset).PositionOffset.2
          + (j : ℚ) * (setBufferToTextureCopyParams destArea destSize bytesPerPixel alignment
            rowLength offset).PositionScale.2
      < 1 - 2 * ((destArea.y + j : Int) : ℚ) / (destSize.height : ℚ)) := by
  obtain ⟨hx0, hx1⟩ := half_texel_bounds destSize.width hW
  obtain ⟨hy0, hy1⟩ := half_texel_bounds destSize.height hH
  have hWp : (destSize.width : ℚ) ≠ 0 := by
    have : (0 : Int) < destSize.width := by omega
    have : (0 : ℚ) < (destSize.width : ℚ) := by exact_mod_cast this
    exact ne_of_gt this
  have hHp : (destSize.height : ℚ) ≠ 0 := by
    have : (0 : Int) < destSize.height := by omega
    have : (0 : ℚ) < (destSize.height : ℚ) := by exact_mod_cast this
    exact ne_of_gt this
  simp only [setBufferToTextureCopyParams]
  generalize (1 / 2 : ℚ) / ((destSize.width - 1 : Int) : ℚ) = tx at hx0 hx1 ⊢
  generalize (1 / 2 : ℚ) / ((destSize.height - 1 : Int) : ℚ) = ty at hy0 hy1 ⊢
  push_cast
  refine ⟨?_, ?_, ?_, ?_⟩
  · have e : tx + (destArea.x : ℚ) / (destSize.width : ℚ) * 2 - 1
        + (i : ℚ) * (2 / (destSize.width : ℚ))
        = tx + (2 * ((destArea.x : ℚ) + (i : ℚ)) / (destSize.width : ℚ) - 1) := by
      field_simp; ring
    rw [e]; linarith
  · have e : tx + (destArea.x : ℚ) / (destSize.width : ℚ) * 2 - 1
        + (i : ℚ) * (2 / (destSize.width : ℚ))
        = tx + (2 * ((destArea.x : ℚ) + (i : ℚ) + 1) / (destSize.width : ℚ) - 1)
          - 2 / (destSize.width : ℚ) := by
      field_simp; ring
    rw [e]; linarith
  · have e :
        ty + ((destSize.height : ℚ) - (destArea.y : ℚ) - 1) / (destSize.height : ℚ) * 2 - 1
        + (j : ℚ) * (-2 / (destSize.height : ℚ))
        = ty + (1 - 2 * ((destArea.y : ℚ) + (j : ℚ) + 1) / (destSize.height : ℚ)) := by
      field_simp; ring
    rw [e]; linarith
  · have e :
        ty + ((destSize.height : ℚ) - (destArea.y : ℚ) - 1) / (destSize.height : ℚ) * 2 - 1
        + (j : ℚ) * (-2 / (destSize.height : ℚ))
        = ty + (1 - 2 * ((destArea.y : ℚ) + (j : ℚ)) / (destSize.height : ℚ))
          - 2 / (destSize.height : ℚ) := by
      field_simp; ring
    rw [e]; linarith

/-- Witness for C20: the first column of a region at `x = 1` in a 4 x 4
destination. -/
theorem setBufferToTextureCopyParams_position_witness :
    2 * (((1 : Int) + 0 : Int) : ℚ) / ((4 : Int) : ℚ) - 1
      < (setBufferToTextureCopyParams ⟨1, 1, 0, 2, 2, 1⟩ ⟨4, 4, 1⟩ 4 4 0 0).PositionOffset.1
          + ((0 : Int) : ℚ)
            * (setBufferToTextureCopyParams ⟨1, 1, 0, 2, 2, 1⟩ ⟨4, 4, 1⟩ 4 4 0
                0).PositionScale.1 :=
  (setBufferToTextureCopyParams_position ⟨1, 1, 0, 2, 2, 1⟩ ⟨4, 4, 1⟩ 4 4 0 0 0 0
    (by decide) (by decide)).1

/-! ### `LazyShader` -/

theorem LazyShader.resolve_cached (l : LazyShader) (r : Renderer11) (device h : Handle)
    (hc : l.mResource = some h) :
    l.resolve r device
      = { shader := some h, renderer := r, self := l.checkAssociatedDevice device } := by
  simp [LazyShader.resolve, LazyShader.checkAssociatedDevice, hc]

theorem LazyShader.resolve_empty (l : LazyShader) (r : Renderer11) (device : Handle)
    (hc : l.mResource = none) :
    (l.resolve r device).self.mResource = (l.resolve r device).shader ∧
    (l.resolve r device).renderer.log = r.log ++ callsSince r (l.resolve r device).renderer ∧
    creations (callsSince r (l.resolve r device).renderer) = [(l.resolve r device).shader] := by
  rcases l with ⟨stage, code, res, dev⟩
  simp only at hc
  subst hc
  cases stage <;>
    simp [LazyShader.resolve, LazyShader.checkAssociatedDevice, callsSince,
      d3d11.CompileVS_log, d3d11.CompileGS_log, d3d11.CompilePS_log, creations,
      creationResult]

theorem LazyShader.resolveN_cached (l : LazyShader) (r : Renderer11) (device h : Handle)
    (hc : l.mResource = some h) (n : Nat) :
    (l.resolveN r device n).1 = List.replicate n (some h) ∧
    (l.resolveN r device n).2.1 = r ∧
    (l.resolveN r device n).2.2.mResource = some h := by
  induction n generalizing l with
  | zero => exact ⟨rfl, rfl, hc⟩
  | succ n ih =>
    have hc2 : (l.checkAssociatedDevice device).mResource = some h := hc
    obtain ⟨h1, h2, h3⟩ := ih (l.checkAssociatedDevice device) hc2
    simp only [LazyShader.resolveN, LazyShader.resolve_cached l r device h hc, h1, h2, h3,
      List.replicate_succ, and_self]

/-- C17. For a `LazyShader` of any stage: a resolve calls the creation function of
the device (once) only if no object is cached, and returns what the cache then
holds. After a resolve that returned a shader, `n` further resolves on the same
device all return that shader and make no call; a following `release()`, which
is all the destructor runs, releases that shader once, and a repeated release
or the destructor after it makes no call. -/
theorem LazyShader.resolve_once (l : LazyShader) (r : Renderer11) (device h : Handle)
    (n : Nat) (hok : (l.resolve r device).shader = some h) :
    creations (callsSince r (l.resolve r device).renderer)
      = (if l.mResource.isSome then [] else [(l.resolve r device).shader]) ∧
    ((l.resolve r device).self.resolveN (l.resolve r device).renderer device n).1
      = List.replicate n (some h) ∧
    ((l.resolve r device).self.resolveN (l.resolve r device).renderer device n).2.1
      = (l.resolve r device).renderer ∧
    (((l.resolve r device).self.resolveN (l.resolve r device).renderer device n).2.2.release
        (l.resolve r device).renderer).1.log
      = (l.resolve r device).renderer.log ++ [Call.Release h] ∧
    (((l.resolve r device).self.resolveN (l.resolve r device).renderer device n).2.2.release
        (l.resolve r device).renderer).2.mResource = none ∧
    (∀ (l2 : LazyShader) (r2 : Renderer11), l2.mResource = none →
      l2.release r2 = (r2, l2) ∧ l2.destructor r2 = (r2, l2)) ∧
    (∀ (l2 : LazyShader) (r2 : Renderer11), l2.destructor r2 = l2.release r2) := by
  have hself : (l.resolve r device).self.mResource = some h := by
    cases hc : l.mResource with
    | none => rw [(LazyShader.resolve_empty l r device hc).1]; exact hok
    | some h' =>
      rw [LazyShader.resolve_cached l r device h' hc] at hok ⊢
      simp only [Option.some.injEq] at hok
      subst hok
      exact hc
  obtain ⟨h1, h2, h3⟩ := LazyShader.resolveN_cached (l.resolve r device).self
    (l.resolve r device).renderer device h hself n
  refine ⟨?_, h1, h2, ?_, ?_, ?_, fun _ _ => rfl⟩
  · cases hc : l.mResource with
    | none => simpa using (LazyShader.resolve_empty l r device hc).2.2
    | some h' =>
      rw [LazyShader.resolve_cached l r device h' hc]
      simp [callsSince, creations]
  · simp [LazyShader.release, SafeRelease, h3, Renderer11.emit]
  · simp [LazyShader.release, SafeRelease, h3]
  · intro l2 r2 h0
    rcases l2 with ⟨stage, code, res, dev⟩
    simp only at h0
    subst h0
    exact ⟨rfl, rfl⟩

/-- Witness for C17: a fresh vertex `LazyShader` on a device whose calls succeed,
resolved once and then four more times. -/
theorem LazyShader.resolve_once_witness :
    (((LazyShader.new ShaderStage.vertex ShaderBlob.g_VS_BufferToTexture).resolve
        sampleRenderer 1).self.resolveN
      ((LazyShader.new ShaderStage.vertex ShaderBlob.g_VS_BufferToTexture).resolve
        sampleRenderer 1).renderer 1 4).1 = List.replicate 4 (some 1) :=
  (LazyShader.resolve_once (LazyShader.new ShaderStage.vertex ShaderBlob.g_VS_BufferToTexture)
    sampleRenderer 1 1 4 (by decide)).2.1

/-! ### `findBufferToTexturePS` -/

theorem PixelTransfer11.findBufferToTexturePS_of_map (e : PixelTransfer11)
    (tables : FormatTables) (internalFormat : GLenum) (f i u : Option Handle)
    (hm : e.mBufferToTexturePSMap = [(GL_INT, i), (GL_UNSIGNED_INT, u), (GL_FLOAT, f)]) :
    e.findBufferToTexturePS tables internalFormat =
      (if tables.componentType internalFormat = GL_FLOAT ∨
          tables.componentType internalFormat = GL_SIGNED_NORMALIZED ∨
          tables.componentType internalFormat = GL_UNSIGNED_NORMALIZED then f
       else if tables.componentType internalFormat = GL_INT then i
       else if tables.componentType internalFormat = GL_UNSIGNED_INT then u
       else none) := by
  simp only [PixelTransfer11.findBufferToTexturePS, hm, ShaderMap.find]
  generalize tables.componentType internalFormat = c
  by_cases h1 : c = GL_SIGNED_NORMALIZED
  · subst h1; simp [List.find?, GL_SIGNED_NORMALIZED, GL_UNSIGNED_NORMALIZED, GL_FLOAT, GL_INT,
      GL_UNSIGNED_INT]
  by_cases h2 : c = GL_UNSIGNED_NORMALIZED
  · subst h2; simp [List.find?, GL_SIGNED_NORMALIZED, GL_UNSIGNED_NORMALIZED, GL_FLOAT, GL_INT,
      GL_UNSIGNED_INT]
  by_cases h3 : c = GL_FLOAT
  · subst h3; simp [List.find?, GL_SIGNED_NORMALIZED, GL_UNSIGNED_NORMALIZED, GL_FLOAT, GL_INT,
      GL_UNSIGNED_INT]
  by_cases h4 : c = GL_INT
  · subst h4; simp [List.find?, GL_SIGNED_NORMALIZED, GL_UNSIGNED_NORMALIZED, GL_FLOAT, GL_INT,
      GL_UNSIGNED_INT]
  by_cases h5 : c = GL_UNSIGNED_INT
  · subst h5; simp [List.find?, GL_SIGNED_NORMALIZED, GL_UNSIGNED_NORMALIZED, GL_FLOAT, GL_INT,
      GL_UNSIGNED_INT]
  have h4' : ¬ (GL_INT == c) = true := fun hh => h4 (eq_of_beq hh).symm
  have h5' : ¬ (GL_UNSIGNED_INT == c) = true := fun hh => h5 (eq_of_beq hh).symm
  have h3' : ¬ (GL_FLOAT == c) = true := fun hh => h3 (eq_of_beq hh).symm
  simp [List.find?, h1, h2, h3, h4, h5, h3', h4', h5']

/-- C18. On an engine in a state the code can produce, after `buildShaderMap` the
pixel shader found for a format is chosen by its component type: float,
signed-normalized and unsigned-normalized give the shader created from the
float blob, int the one created from the integer blob, unsigned int the one
created from the unsigned-integer blob, and every other component type gives
null. -/
theorem findBufferToTexturePS_selects (e : PixelTransfer11) (r : Renderer11)
    (tables : FormatTables) (internalFormat : GLenum) (he : e.Reachable) :
    (e.buildShaderMap r).self.findBufferToTexturePS tables internalFormat =
      (if tables.componentType internalFormat = GL_FLOAT ∨
          tables.componentType internalFormat = GL_SIGNED_NORMALIZED ∨
          tables.componentType internalFormat = GL_UNSIGNED_NORMALIZED then
        (d3d11.CompilePS r ShaderBlob.g_PS_BufferToTexture_4F).1
       else if tables.componentType internalFormat = GL_INT then
        (d3d11.CompilePS (d3d11.CompilePS r ShaderBlob.g_PS_BufferToTexture_4F).2
          ShaderBlob.g_PS_BufferToTexture_4I).1
       else if tables.componentType internalFormat = GL_UNSIGNED_INT then
        (d3d11.CompilePS (d3d11.CompilePS (d3d11.CompilePS r
          ShaderBlob.g_PS_BufferToTexture_4F).2 ShaderBlob.g_PS_BufferToTexture_4I).2
          ShaderBlob.g_PS_BufferToTexture_4UI).1
       else none) := by
  apply PixelTransfer11.findBufferToTexturePS_of_map
  rw [PixelTransfer11.buildShaderMap_eq e r he.inv.1]

/-- Witness for C18: on a fresh engine and a device whose calls succeed, a format
with float components (every format of the sample tables) gets the first
shader created, object 1. -/
theorem findBufferToTexturePS_selects_witness :
    (sampleEngine.buildShaderMap sampleRenderer).self.findBufferToTexturePS sampleTables 0
      = some 1 := by
  have h := findBufferToTexturePS_selects sampleEngine sampleRenderer sampleTables 0
    (PixelTransfer11.Reachable.new _)
  rw [h]
  decide

/-! ### The constant buffer shadow -/

theorem mapCalls_append (a b : List Call) : mapCalls (a ++ b) = mapCalls a + mapCalls b := by
  simp [mapCalls, List.filter_append]

theorem mapCalls_of_creations (cs : List Call)
    (h : cs.all (fun c => (creationResult c).isSome) = true) : mapCalls cs = 0 := by
  unfold mapCalls
  rw [List.length_eq_zero, List.filter_eq_nil_iff]
  intro c hc
  have h1 := List.all_eq_true.1 h c hc
  cases c <;> first | (simp; done) | (exact absurd h1 (by simp [creationResult]))

theorem mapCalls_uploadCalls (r : Renderer11) (cb : Option Handle) (v : CopyShaderParams) :
    mapCalls (uploadCalls r cb v) = 1 := by
  unfold uploadCalls mapCalls
  split <;> rfl

theorem writes_append (a b : List Call) (cb : Option Handle) :
    writes (a ++ b) cb = writes a cb ++ writes b cb := by
  simp [writes, List.filterMap_append]

theorem writes_of_creations (cs : List Call) (cb : Option Handle)
    (h : cs.all (fun c => (creationResult c).isSome) = true) : writes cs cb = [] := by
  unfold writes
  rw [List.filterMap_eq_nil_iff]
  intro c hc
  have h1 := List.all_eq_true.1 h c hc
  cases c <;> first | rfl | (exact absurd h1 (by simp [creationResult]))

theorem writes_uploadCalls (r : Renderer11) (cb : Option Handle) (v : CopyShaderParams) :
    writes (uploadCalls r cb v) cb = (if r.nextOutcome.1 = true then [v] else []) := by
  unfold uploadCalls writes
  split <;> simp

/-- What holds of the shadow: a `copyBufferToTexture` that gets past
`loadResources` and the source view attempts an upload exactly when the new
parameters differ from the shadow, writes the new parameters to the constant
buffer only if moreover the `Map` succeeds, and in every case leaves the shadow
equal to the new parameters. -/
theorem PixelTransfer11.copyBufferToTexture_shadow (e : PixelTransfer11) (r : Renderer11)
    (tables : FormatTables) (unpack : PixelUnpackState) (offset : Nat)
    (destRenderTarget : RenderTarget11) (destinationFormat sourcePixelsType : GLenum)
    (destArea : gl.Box)
    (hl : (e.loadResources r).result.isError = false)
    (hs : (sourceView tables unpack destinationFormat sourcePixelsType).error.isError = false) :
    mapCalls (callsSince r (e.copyBufferToTexture r tables unpack offset destRenderTarget
        destinationFormat sourcePixelsType destArea).renderer)
      = (if (e.loadResources r).self.mParamsData ≠ copyParams tables unpack offset
            destRenderTarget destinationFormat sourcePixelsType destArea then 1 else 0) ∧
    writes (callsSince r (e.copyBufferToTexture r tables unpack offset destRenderTarget
        destinationFormat sourcePixelsType destArea).renderer)
        (e.loadResources r).self.mParamsConstantBuffer.get
      = (if (e.loadResources r).self.mParamsData ≠ copyParams tables unpack offset
            destRenderTarget destinationFormat sourcePixelsType destArea then
          (if (e.loadResources r).renderer.nextOutcome.1 = true then
            [copyParams tables unpack offset destRenderTarget destinationFormat
              sourcePixelsType destArea]
           else [])
         else []) ∧
    (e.copyBufferToTexture r tables unpack offset destRenderTarget destinationFormat
        sourcePixelsType destArea).self.mParamsData
      = copyParams tables unpack offset destRenderTarget destinationFormat sourcePixelsType
          destArea := by
  obtain ⟨-, hself, hlog⟩ := PixelTransfer11.copyBufferToTexture_success e r tables unpack
    offset destRenderTarget destinationFormat sourcePixelsType destArea hl hs
  obtain ⟨cs, hcs, hall⟩ := PixelTransfer11.loadResources_createsOnly e r
  rw [hcs, List.append_assoc] at hlog
  refine ⟨?_, ?_, by rw [hself]⟩
  · simp only [callsSince, hlog, List.drop_left]
    rw [mapCalls_append, mapCalls_append, mapCalls_append, mapCalls_of_creations cs hall]
    by_cases h : (e.loadResources r).self.mParamsData = copyParams tables unpack offset
        destRenderTarget destinationFormat sourcePixelsType destArea
    · simp only [ne_eq, h, not_true_eq_false, if_false]; rfl
    · simp only [ne_eq, h, not_false_eq_true, if_true, mapCalls_uploadCalls]; rfl
  · generalize (if destRenderTarget.getExtents.depth > 1
      then (e.loadResources r).self.mBufferToTextureGS else none) = g at hlog
    simp only [callsSince, hlog, List.drop_left]
    rw [writes_append, writes_append, writes_append, writes_of_creations cs _ hall]
    by_cases h : (e.loadResources r).self.mParamsData = copyParams tables unpack offset
        destRenderTarget destinationFormat sourcePixelsType destArea
    · simp [h, writes]
    · simp only [ne_eq, h, not_false_eq_true, if_true, writes_uploadCalls]
      simp [writes]

/-- A second `copyBufferToTexture` with the inputs of a first one that got past
`loadResources` and the source view returns no error, attempts no upload and
writes nothing, on any renderer, and leaves the engine as it was. -/
theorem PixelTransfer11.copyBufferToTexture_repeat (e : PixelTransfer11) (r r2 : Renderer11)
    (tables : FormatTables) (unpack : PixelUnpackState) (offset : Nat)
    (destRenderTarget : RenderTarget11) (destinationFormat sourcePixelsType : GLenum)
    (destArea : gl.Box)
    (hl : (e.loadResources r).result.isError = false)
    (hs : (sourceView tables unpack destinationFormat sourcePixelsType).error.isError = false) :
    ((e.copyBufferToTexture r tables unpack offset destRenderTarget destinationFormat
        sourcePixelsType destArea).self.copyBufferToTexture r2 tables unpack offset
        destRenderTarget destinationFormat sourcePixelsType destArea).result = gl.NoError ∧
    mapCalls (callsSince r2
      ((e.copyBufferToTexture r tables unpack offset destRenderTarget destinationFormat
        sourcePixelsType destArea).self.copyBufferToTexture r2 tables unpack offset
        destRenderTarget destinationFormat sourcePixelsType destArea).renderer) = 0 ∧
    writes (callsSince r2
      ((e.copyBufferToTexture r tables unpack offset destRenderTarget destinationFormat
        sourcePixelsType destArea).self.copyBufferToTexture r2 tables unpack offset
        destRenderTarget destinationFormat sourcePixelsType destArea).renderer)
      (e.copyBufferToTexture r tables unpack offset destRenderTarget destinationFormat
        sourcePixelsType destArea).self.mParamsConstantBuffer.get = [] ∧
    ((e.copyBufferToTexture r tables unpack offset destRenderTarget destinationFormat
        sourcePixelsType destArea).self.copyBufferToTexture r2 tables unpack offset
        destRenderTarget destinationFormat sourcePixelsType destArea).self.mParamsData
      = (e.copyBufferToTexture r tables unpack offset destRenderTarget destinationFormat
        sourcePixelsType destArea).self.mParamsData := by
  have h1 := (PixelTransfer11.copyBufferToTexture_shadow e r tables unpack offset
    destRenderTarget destinationFormat sourcePixelsType destArea hl hs).2.2
  have hloaded : (e.copyBufferToTexture r tables unpack offset destRenderTarget
      destinationFormat sourcePixelsType destArea).self.mResourcesLoaded = true := by
    rw [(PixelTransfer11.copyBufferToTexture_success e r tables unpack offset
      destRenderTarget destinationFormat sourcePixelsType destArea hl hs).2.1]
    exact PixelTransfer11.loadResources_noError e r hl
  generalize (e.copyBufferToTexture r tables unpack offset destRenderTarget
      destinationFormat sourcePixelsType destArea).self = e1 at h1 hloaded ⊢
  have hno := PixelTransfer11.loadResources_loaded e1 r2 hloaded
  have hl2 : (e1.loadResources r2).result.isError = false := by rw [hno]; rfl
  obtain ⟨hm, hw, hp⟩ := PixelTransfer11.copyBufferToTexture_shadow e1 r2 tables unpack
    offset destRenderTarget destinationFormat sourcePixelsType destArea hl2 hs
  have hr := (PixelTransfer11.copyBufferToTexture_success e1 r2 tables unpack offset
    destRenderTarget destinationFormat sourcePixelsType destArea hl2 hs).1
  rw [hno] at hm hw
  simp only [h1, ne_eq, not_true_eq_false, if_false] at hm hw
  exact ⟨hr, hm, hw, by rw [hp, h1]⟩


/-- C11 (the code at the failing input). In the scenario in which the first `Map`
fails, both transfers return no error; the first attempts one upload and writes
nothing to the constant buffer (object 3), yet leaves the shadow equal to the
new parameters; the second, with identical inputs, attempts no upload and
writes nothing; so after each call the shadow differs from the contents last
written to the constant buffer, which was never written. -/
theorem copyBufferToTexture_shadow_after_failed_map :
    mapFailureScenario.1.result = gl.NoError ∧
    mapFailureScenario.2.result = gl.NoError ∧
    mapFailureScenario.1.self.mParamsConstantBuffer.get = some 3 ∧
    mapCalls (callsSince failingMapRenderer mapFailureScenario.1.renderer) = 1 ∧
    lastWritten (callsSince failingMapRenderer mapFailureScenario.1.renderer) (some 3) = none ∧
    mapFailureScenario.1.self.mParamsData
      = copyParams sampleTables sampleUnpack 0 (sampleTarget 4 4 1) 0 0 ⟨0, 0, 0, 2, 2, 1⟩ ∧
    mapFailureScenario.2.self.mParamsData = mapFailureScenario.1.self.mParamsData ∧
    mapCalls (callsSince mapFailureScenario.1.renderer mapFailureScenario.2.renderer) = 0 ∧
    lastWritten (callsSince mapFailureScenario.1.renderer mapFailureScenario.2.renderer)
      (some 3) = none := by
  have e1 : mapFailureScenario.1 = sampleEngine.copyBufferToTexture failingMapRenderer
      sampleTables sampleUnpack 0 (sampleTarget 4 4 1) 0 0 ⟨0, 0, 0, 2, 2, 1⟩ := rfl
  have e2 : mapFailureScenario.2 = (sampleEngine.copyBufferToTexture failingMapRenderer
      sampleTables sampleUnpack 0 (sampleTarget 4 4 1) 0 0
      ⟨0, 0, 0, 2, 2, 1⟩).self.copyBufferToTexture
      (sampleEngine.copyBufferToTexture failingMapRenderer
        sampleTables sampleUnpack 0 (sampleTarget 4 4 1) 0 0 ⟨0, 0, 0, 2, 2, 1⟩).renderer
      sampleTables sampleUnpack 0 (sampleTarget 4 4 1) 0 0 ⟨0, 0, 0, 2, 2, 1⟩ := rfl
  rw [e2, e1]
  have hl : (sampleEngine.loadResources failingMapRenderer).result.isError = false := by
    decide
  have hs : (sourceView sampleTables sampleUnpack 0 0).error.isError = false := by decide
  have hcb : (sampleEngine.loadResources failingMapRenderer).self.mParamsConstantBuffer.get
      = some 3 := by decide
  have hmap : (sampleEngine.loadResources failingMapRenderer).renderer.nextOutcome.1 = false := by
    decide
  have hz : (sampleEngine.loadResources failingMapRenderer).self.mParamsData
      ≠ copyParams sampleTables sampleUnpack 0 (sampleTarget 4 4 1) 0 0
          ⟨0, 0, 0, 2, 2, 1⟩ := by
    intro h
    have h2 := congrArg CopyShaderParams.PixelsPerRow h
    revert h2
    decide
  obtain ⟨hm, hw, hp⟩ := PixelTransfer11.copyBufferToTexture_shadow sampleEngine
    failingMapRenderer sampleTables sampleUnpack 0 (sampleTarget 4 4 1) 0 0 ⟨0, 0, 0, 2, 2, 1⟩
    hl hs
  have hok := PixelTransfer11.copyBufferToTexture_success sampleEngine
    failingMapRenderer sampleTables sampleUnpack 0 (sampleTarget 4 4 1) 0 0 ⟨0, 0, 0, 2, 2, 1⟩
    hl hs
  obtain ⟨r1, r2, r3, r4⟩ := PixelTransfer11.copyBufferToTexture_repeat sampleEngine
    failingMapRenderer
    (sampleEngine.copyBufferToTexture failingMapRenderer sampleTables sampleUnpack 0
      (sampleTarget 4 4 1) 0 0 ⟨0, 0, 0, 2, 2, 1⟩).renderer
    sampleTables sampleUnpack 0 (sampleTarget 4 4 1) 0 0 ⟨0, 0, 0, 2, 2, 1⟩ hl hs
  have hcb1 : (sampleEngine.copyBufferToTexture failingMapRenderer sampleTables sampleUnpack 0
      (sampleTarget 4 4 1) 0 0 ⟨0, 0, 0, 2, 2, 1⟩).self.mParamsConstantBuffer.get = some 3 := by
    rw [hok.2.1]; exact hcb
  rw [hcb] at hw
  rw [hcb1] at r3
  simp only [ne_eq, hz, not_false_eq_true, if_true, hmap, Bool.false_eq_true, if_false] at hm hw
  refine ⟨hok.1, r1, hcb1, hm, ?_, hp, r4, r2, ?_⟩
  · unfold lastWritten; rw [hw]; rfl
  · unfold lastWritten
    exact (congrArg List.getLast? r3).trans rfl

/-! ### Order of the calls of a transfer -/

theorem boundShaderResource_append_unbind (pre : List Call) (n : Nat) :
    boundShaderResource (pre ++ [Call.Draw n, Call.setShaderResource 0 none,
      Call.VSSetConstantBuffers 0 none, Call.markAllStateDirty]) 0 = some none := by
  simp [boundShaderResource, List.filterMap_append]

theorem boundVSConstantBuffer_append_unbind (pre : List Call) (n : Nat) :
    boundVSConstantBuffer (pre ++ [Call.Draw n, Call.setShaderResource 0 none,
      Call.VSSetConstantBuffers 0 none, Call.markAllStateDirty]) 0 = some none := by
  simp [boundVSConstantBuffer, List.filterMap_append]

/-- C12. Within a `copyBufferToTexture` that returns no error, the calls made are
a list `pre` followed by the draw, the unbinding of the pixel-stage source view
slot 0, the unbinding of the vertex-stage constant buffer slot 0 and
`markAllStateDirty`, in this order. `pre` contains no draw and contains every
binding: the three shader stages, the source view, the input layout, topology
and vertex buffer, the blend, depth-stencil and rasterizer states, the render
target, the constant buffer and the viewport. So after the call the source view
slot 0 and the constant buffer slot 0 hold null and the last call has marked
all device state dirty. -/
theorem copyBufferToTexture_binding_order (e : PixelTransfer11) (r : Renderer11)
    (tables : FormatTables) (unpack : PixelUnpackState) (offset : Nat)
    (destRenderTarget : RenderTarget11) (destinationFormat sourcePixelsType : GLenum)
    (destArea : gl.Box)
    (hok : (e.copyBufferToTexture r tables unpack offset destRenderTarget destinationFormat
      sourcePixelsType destArea).result.isError = false) :
    ∃ pre : List Call,
      callsSince r (e.copyBufferToTexture r tables unpack offset destRenderTarget
        destinationFormat sourcePixelsType destArea).renderer
        = pre ++ [Call.Draw (toUnsigned (destArea.width * destArea.height * destArea.depth)),
            Call.setShaderResource 0 none, Call.VSSetConstantBuffers 0 none,
            Call.markAllStateDirty] ∧
      draws pre = [] ∧
      (∀ c ∈ [ Call.VSSetShader (e.loadResources r).self.mBufferToTextureVS,
               Call.GSSetShader (if destRenderTarget.getExtents.depth > 1
                 then (e.loadResources r).self.mBufferToTextureGS else none),
               Call.PSSetShader ((e.loadResources r).self.findBufferToTexturePS tables
                 destinationFormat),
               Call.setShaderResource 0
                 (sourceView tables unpack destinationFormat sourcePixelsType).result,
               Call.IASetInputLayout none,
               Call.IASetPrimitiveTopologyPointList,
               Call.IASetVertexBuffers 0 none,
               Call.OMSetBlendState none,
               Call.OMSetDepthStencilState (e.loadResources r).self.mCopyDepthStencilState.get,
               Call.RSSetState (e.loadResources r).self.mCopyRasterizerState.get,
               Call.setOneTimeRenderTarget destRenderTarget.getRenderTargetView,
               Call.VSSetConstantBuffers 0 (e.loadResources r).self.mParamsConstantBuffer.get,
               Call.RSSetViewports (destRenderTarget.getExtents.width : ℚ)
                 (destRenderTarget.getExtents.height : ℚ) ], c ∈ pre) ∧
      boundShaderResource (callsSince r (e.copyBufferToTexture r tables unpack offset
        destRenderTarget destinationFormat sourcePixelsType destArea).renderer) 0
        = some none ∧
      boundVSConstantBuffer (callsSince r (e.copyBufferToTexture r tables unpack offset
        destRenderTarget destinationFormat sourcePixelsType destArea).renderer) 0
        = some none ∧
      (callsSince r (e.copyBufferToTexture r tables unpack offset destRenderTarget
        destinationFormat sourcePixelsType destArea).renderer).getLast?
        = some Call.markAllStateDirty := by
  obtain ⟨hl, hs⟩ := PixelTransfer11.copyBufferToTexture_noError e r tables unpack offset
    destRenderTarget destinationFormat sourcePixelsType destArea hok
  have hlog := (PixelTransfer11.copyBufferToTexture_success e r tables unpack offset
    destRenderTarget destinationFormat sourcePixelsType destArea hl hs).2.2
  obtain ⟨cs, hcs, hall⟩ := PixelTransfer11.loadResources_createsOnly e r
  rw [hcs, List.append_assoc] at hlog
  generalize (if destRenderTarget.getExtents.depth > 1
    then (e.loadResources r).self.mBufferToTextureGS else none) = g at hlog ⊢
  have hup : draws (if (e.loadResources r).self.mParamsData ≠ copyParams tables unpack offset
      destRenderTarget destinationFormat sourcePixelsType destArea
    then uploadCalls (e.loadResources r).renderer
      (e.loadResources r).self.mParamsConstantBuffer.get
      (copyParams tables unpack offset destRenderTarget destinationFormat sourcePixelsType
        destArea)
    else []) = [] := by
    split
    · exact draws_uploadCalls _ _ _
    · rfl
  generalize (if (e.loadResources r).self.mParamsData ≠ copyParams tables unpack offset
      destRenderTarget destinationFormat sourcePixelsType destArea
    then uploadCalls (e.loadResources r).renderer
      (e.loadResources r).self.mParamsConstantBuffer.get
      (copyParams tables unpack offset destRenderTarget destinationFormat sourcePixelsType
        destArea)
    else []) = up at hlog hup
  have hcalls : callsSince r (e.copyBufferToTexture r tables unpack offset destRenderTarget
      destinationFormat sourcePixelsType destArea).renderer
      = (cs ++ ([ Call.VSSetShader (e.loadResources r).self.mBufferToTextureVS,
          Call.GSSetShader g,
          Call.PSSetShader ((e.loadResources r).self.findBufferToTexturePS tables
            destinationFormat),
          Call.setShaderResource 0
            (sourceView tables unpack destinationFormat sourcePixelsType).result,
          Call.IASetInputLayout none,
          Call.IASetPrimitiveTopologyPointList,
          Call.IASetVertexBuffers 0 none,
          Call.OMSetBlendState none,
          Call.OMSetDepthStencilState (e.loadResources r).self.mCopyDepthStencilState.get,
          Call.RSSetState (e.loadResources r).self.mCopyRasterizerState.get,
          Call.setOneTimeRenderTarget destRenderTarget.getRenderTargetView ] ++ up ++
        [ Call.VSSetConstantBuffers 0 (e.loadResources r).self.mParamsConstantBuffer.get,
          Call.RSSetViewports (destRenderTarget.getExtents.width : ℚ)
            (destRenderTarget.getExtents.height : ℚ) ]))
        ++ [Call.Draw (toUnsigned (destArea.width * destArea.height * destArea.depth)),
            Call.setShaderResource 0 none, Call.VSSetConstantBuffers 0 none,
            Call.markAllStateDirty] := by
    simp only [callsSince, hlog, List.drop_left]
    simp only [List.append_assoc, List.cons_append, List.nil_append]
  refine ⟨_, hcalls, ?_, ?_, ?_, ?_, ?_⟩
  · rw [draws_append, draws_append, draws_append, draws_of_creations cs hall, hup]
    rfl
  · intro c hc
    simp only [List.mem_cons, List.mem_singleton, List.not_mem_nil, or_false] at hc
    simp only [List.mem_append, List.mem_cons, List.mem_singleton, List.not_mem_nil, or_false]
    rcases hc with h | h | h | h | h | h | h | h | h | h | h | h | h <;> subst h <;> simp
  · rw [hcalls]; exact boundShaderResource_append_unbind _ _
  · rw [hcalls]; exact boundVSConstantBuffer_append_unbind _ _
  · rw [hcalls, List.getLast?_append]; rfl

/-- Witness for C12: a transfer on a fresh engine and a device whose calls
succeed. -/
theorem copyBufferToTexture_binding_order_witness :
    boundShaderResource (callsSince sampleRenderer (sampleEngine.copyBufferToTexture
      sampleRenderer sampleTables sampleUnpack 0 (sampleTarget 4 4 1) 0 0
      ⟨0, 0, 0, 2, 2, 1⟩).renderer) 0 = some none := by
  obtain ⟨pre, -, -, -, h, -, -⟩ := copyBufferToTexture_binding_order sampleEngine
    sampleRenderer sampleTables sampleUnpack 0 (sampleTarget 4 4 1) 0 0 ⟨0, 0, 0, 2, 2, 1⟩
    (by decide)
  exact h

/-! ### The row stride in bytes -/

/-- An `unsigned int` obtained by conversion is below `2 ^ 32`. -/
theorem toUnsigned_lt (i : Int) : toUnsigned i < UINT_RANGE := by
  unfold toUnsigned UINT_RANGE
  have h := Int.emod_lt_of_pos i (show (0 : Int) < ((2 ^ 32 : Nat) : Int) by norm_num)
  have h0 := Int.emod_nonneg i (show (((2 ^ 32 : Nat) : Int)) ≠ 0 by norm_num)
  omega

/-- The local `alignmentPixels` is at least one for a pixel of at least one
byte. -/
theorem alignmentPixels_pos (a b : Nat) (hb : 1 ≤ b) : 1 ≤ alignmentPixels a b := by
  unfold alignmentPixels
  split
  · exact le_refl 1
  · exact (Nat.one_le_div_iff (by omega)).2 (by omega)

/-- Two least multiples of the same number above the same bound are equal. -/
theorem IsLeastMultipleGE.unique {m p s t : Nat} (hs : IsLeastMultipleGE m p s)
    (ht : IsLeastMultipleGE m p t) : s = t :=
  Nat.le_antisymm (hs.2.2 t ht.1 ht.2.1) (ht.2.2 s hs.1 hs.2.1)

/-- The byte row pitch of the unpack rules is the least multiple of the
alignment that is at least the bytes of the row. -/
theorem unpackRowPitch_isLeast (a b p : Nat) (ha : 1 ≤ a) :
    IsLeastMultipleGE a (p * b) (unpackRowPitch a b p) := by
  have hdm := Nat.div_add_mod (p * b + a - 1) a
  have hr : (p * b + a - 1) % a < a := Nat.mod_lt _ (by omega)
  have hval : unpackRowPitch a b p = a * ((p * b + a - 1) / a) := by
    unfold unpackRowPitch
    exact Nat.mul_comm _ _
  refine ⟨?_, ?_, ?_⟩
  · rw [hval]; exact Dvd.intro _ rfl
  · rw [hval]; omega
  · rintro k ⟨c, rfl⟩ hk
    rw [hval]
    apply Nat.mul_le_mul_left
    by_contra hc
    have hc2 : c + 1 ≤ (p * b + a - 1) / a := by omega
    have h3 : a * (c + 1) ≤ a * ((p * b + a - 1) / a) := Nat.mul_le_mul_left _ hc2
    have h4 : a * (c + 1) = a * c + a := by ring
    omega

/-- A least multiple in pixels, times the bytes of a pixel, is the least
multiple in bytes when the byte alignment is a whole number of pixels. -/
theorem rowStride_bytes_isLeast (a b m p s : Nat) (hb : 1 ≤ b) (ham : a = m * b)
    (hs : IsLeastMultipleGE m p s) : IsLeastMultipleGE a (p * b) (s * b) := by
  obtain ⟨⟨c, hc⟩, hle, hmin⟩ := hs
  refine ⟨⟨c, ?_⟩, Nat.mul_le_mul_right b hle, ?_⟩
  · rw [ham, hc]; ring
  · rintro k ⟨d, rfl⟩ hk
    have h1 : p * b ≤ (m * d) * b := by
      calc p * b ≤ a * d := hk
        _ = (m * d) * b := by rw [ham]; ring
    have h2 : p ≤ m * d := Nat.le_of_mul_le_mul_right h1 (by omega)
    have h3 : s ≤ m * d := hmin (m * d) (Dvd.intro _ rfl) h2
    calc s * b ≤ (m * d) * b := Nat.mul_le_mul_right b h3
      _ = a * d := by rw [ham]; ring

/-- Where the rounding sum passes `2 ^ 32`, `roundUp` gives zero. -/
theorem roundUp_wraps (p m : Nat) (hp : p < UINT_RANGE) (hm : m ≤ UINT_RANGE)
    (h : UINT_RANGE < p + m) : roundUp p m = 0 := by
  have ht : (p + m - 1) % UINT_RANGE < m := by
    unfold UINT_RANGE at *
    omega
  unfold roundUp
  simp only [Nat.mod_eq_of_lt ht, Nat.sub_self]

/-- The row stride in bytes against the byte row pitch, on plain numbers: for
alignment `2 ^ j` with `j <= 3` and `2 ^ k` bytes per pixel they agree exactly
when the rounding sum does not pass `2 ^ 32`. -/
theorem rowStride_bytes_eq_iff (a b p j k : Nat) (ha : a = 2 ^ j) (hj : j ≤ 3)
    (hb : b = 2 ^ k) (hp : p < UINT_RANGE) :
    roundUp p (alignmentPixels a b) * b = unpackRowPitch a b p
      ↔ p + alignmentPixels a b ≤ UINT_RANGE := by
  have hb1 : 1 ≤ b := by rw [hb]; exact Nat.one_le_two_pow
  have ha1 : 1 ≤ a := by rw [ha]; exact Nat.one_le_two_pow
  have hpitch := unpackRowPitch_isLeast a b p ha1
  by_cases hab : a ≤ b
  · have hm : alignmentPixels a b = 1 := by simp [alignmentPixels, hab]
    have hjk : j ≤ k := by
      rw [ha, hb] at hab
      exact (Nat.pow_le_pow_iff_right (by norm_num)).1 hab
    have hdvd : a ∣ b := by rw [ha, hb]; exact pow_dvd_pow 2 hjk
    have hr : roundUp p 1 = p := by
      unfold roundUp
      simp only [Nat.add_sub_cancel, Nat.mod_eq_of_lt hp, Nat.mod_one, Nat.sub_zero]
    have hself : IsLeastMultipleGE a (p * b) (p * b) :=
      ⟨Dvd.dvd.mul_left hdvd p, le_refl _, fun _ _ h => h⟩
    rw [hm, hr]
    constructor
    · intro _; omega
    · intro _; exact hself.unique hpitch
  · have hkj : k < j := by
      rw [ha, hb] at hab
      by_contra hc
      exact hab (Nat.pow_le_pow_right (by norm_num) (by omega))
    have hm : alignmentPixels a b = 2 ^ (j - k) := by
      simp only [alignmentPixels, hab, if_false]
      rw [ha, hb]
      exact Nat.pow_div (by omega) (by norm_num)
    have ham : a = alignmentPixels a b * b := by
      rw [hm, ha, hb, ← pow_add]
      congr 1
      omega
    have hm1 : 1 ≤ alignmentPixels a b := alignmentPixels_pos a b hb1
    have hm8 : alignmentPixels a b ≤ 8 := by
      rw [hm]
      calc 2 ^ (j - k) ≤ 2 ^ 3 := Nat.pow_le_pow_right (by norm_num) (by omega)
        _ = 8 := by norm_num
    constructor
    · intro heq
      by_contra hfit
      have hz : roundUp p (alignmentPixels a b) = 0 :=
        roundUp_wraps p _ hp (by unfold UINT_RANGE; omega) (by omega)
      rw [hz, Nat.zero_mul] at heq
      have hpb : p * b ≤ unpackRowPitch a b p := hpitch.2.1
      have hpp : p ≤ p * b := Nat.le_mul_of_pos_right p (by omega)
      unfold UINT_RANGE at hfit
      omega
    · intro hfit
      exact (rowStride_bytes_isLeast a b _ p _ hb1 ham
        (roundUp_isLeast p _ hm1 hfit)).unique hpitch

/-- C21 (amended). For every unpack alignment `a` in `{1, 2, 4, 8}`, every
`bytesPerPixel` `b` that is a power of two and every `PixelsPerRow` value `p`
that `setBufferToTextureCopyParams` computes, the row stride in bytes
`RowStride * b` equals the byte row pitch of the unpack rules, the least
multiple of `a` that is at least `p * b`, exactly when `p + alignmentPixels`
does not pass `2 ^ 32`; this is so whenever `rowLength` is positive or the
region width is not negative (both being `int` values). -/
theorem setBufferToTextureCopyParams_rowPitch (destArea : gl.Box) (destSize : gl.Extents)
    (b : Nat) (a rowLength : Int) (offset k : Nat)
    (ha : a = 1 ∨ a = 2 ∨ a = 4 ∨ a = 8) (hb : b = 2 ^ k) :
    IsLeastMultipleGE a.toNat
      ((setBufferToTextureCopyParams destArea destSize b a rowLength offset).PixelsPerRow * b)
      (unpackRowPitch a.toNat b
        (setBufferToTextureCopyParams destArea destSize b a rowLength offset).PixelsPerRow) ∧
    ((setBufferToTextureCopyParams destArea destSize b a rowLength offset).RowStride * b
        = unpackRowPitch a.toNat b
          (setBufferToTextureCopyParams destArea destSize b a rowLength offset).PixelsPerRow
      ↔ (setBufferToTextureCopyParams destArea destSize b a rowLength offset).PixelsPerRow
          + alignmentPixels (toUnsigned a) b ≤ UINT_RANGE) ∧
    ((0 < rowLength ∨ 0 ≤ destArea.width) → rowLength < 2 ^ 31 → destArea.width < 2 ^ 31 →
      (setBufferToTextureCopyParams destArea destSize b a rowLength offset).RowStride * b
        = unpackRowPitch a.toNat b
          (setBufferToTextureCopyParams destArea destSize b a rowLength offset).PixelsPerRow) := by
  obtain ⟨j, hj, haj, hu⟩ : ∃ j, j ≤ 3 ∧ a.toNat = 2 ^ j ∧ toUnsigned a = a.toNat := by
    rcases ha with rfl | rfl | rfl | rfl
    · exact ⟨0, by decide, by decide, by decide⟩
    · exact ⟨1, by decide, by decide, by decide⟩
    · exact ⟨2, by decide, by decide, by decide⟩
    · exact ⟨3, by decide, by decide, by decide⟩
  have hrs : (setBufferToTextureCopyParams destArea destSize b a rowLength offset).RowStride
      = roundUp (setBufferToTextureCopyParams destArea destSize b a rowLength offset).PixelsPerRow
          (alignmentPixels (toUnsigned a) b) := rfl
  have hp : (setBufferToTextureCopyParams destArea destSize b a rowLength offset).PixelsPerRow
      < UINT_RANGE := toUnsigned_lt _
  have hiff := rowStride_bytes_eq_iff a.toNat b _ j k haj hj hb hp
  rw [hrs, hu]
  refine ⟨unpackRowPitch_isLeast _ _ _ (by rw [haj]; exact Nat.one_le_two_pow), hiff, ?_⟩
  intro hpos hr hw
  apply hiff.2
  have hm8 : alignmentPixels a.toNat b ≤ 8 := by
    unfold alignmentPixels
    have h8 : a.toNat ≤ 8 := by
      rw [haj]
      calc 2 ^ j ≤ 2 ^ 3 := Nat.pow_le_pow_right (by norm_num) hj
        _ = 8 := by norm_num
    split
    · omega
    · exact le_trans (Nat.div_le_self _ _) h8
  have hp31 : (setBufferToTextureCopyParams destArea destSize b a rowLength offset).PixelsPerRow
      < 2 ^ 31 := by
    simp only [setBufferToTextureCopyParams, toUnsigned, UINT_RANGE]
    split
    · rw [Int.emod_eq_of_lt (by omega) (by norm_num; omega)]; omega
    · rw [Int.emod_eq_of_lt (by omega) (by norm_num; omega)]; omega
  unfold UINT_RANGE
  omega

/-- Witness for C21 (amended): alignment 8, four bytes per pixel, a region of
width 3: the row stride of 4 pixels is 16 bytes, the byte row pitch. -/
theorem setBufferToTextureCopyParams_rowPitch_witness :
    (setBufferToTextureCopyParams ⟨0, 0, 0, 3, 2, 1⟩ ⟨4, 4, 1⟩ 4 8 0 0).RowStride * 4
      = unpackRowPitch (8 : Int).toNat 4
          (setBufferToTextureCopyParams ⟨0, 0, 0, 3, 2, 1⟩ ⟨4, 4, 1⟩ 4 8 0 0).PixelsPerRow :=
  (setBufferToTextureCopyParams_rowPitch ⟨0, 0, 0, 3, 2, 1⟩ ⟨4, 4, 1⟩ 4 8 0 0 2
    (by decide) (by decide)).2.1.2 (by decide)

/-- C21 (counterexample). With alignment 8, two bytes per pixel, `rowLength = 0`
and a region width of `-1`, `PixelsPerRow` is `4294967295`, `alignmentPixels` is
`4` and `RowStride` is `0`, so the row stride in bytes is `0`, while the byte
row pitch of the unpack rules is `8589934592`. -/
theorem rowPitch_wraps_for_negative_width :
    (setBufferToTextureCopyParams ⟨0, 0, 0, -1, 1, 1⟩ ⟨4, 4, 1⟩ 2 8 0 0).PixelsPerRow
      = 4294967295 ∧
    alignmentPixels (toUnsigned 8) 2 = 4 ∧
    (setBufferToTextureCopyParams ⟨0, 0, 0, -1, 1, 1⟩ ⟨4, 4, 1⟩ 2 8 0 0).RowStride * 2 = 0 ∧
    unpackRowPitch 8 2 4294967295 = 8589934592 ∧
    (setBufferToTextureCopyParams ⟨0, 0, 0, -1, 1, 1⟩ ⟨4, 4, 1⟩ 2 8 0 0).RowStride * 2
      ≠ unpackRowPitch 8 2
          (setBufferToTextureCopyParams ⟨0, 0, 0, -1, 1, 1⟩ ⟨4, 4, 1⟩ 2 8 0 0).PixelsPerRow := by
  have hp :
      (setBufferToTextureCopyParams ⟨0, 0, 0, -1, 1, 1⟩ ⟨4, 4, 1⟩ 2 8 0 0).PixelsPerRow
        = 4294967295 := by decide
  have hs : (setBufferToTextureCopyParams ⟨0, 0, 0, -1, 1, 1⟩ ⟨4, 4, 1⟩ 2 8 0 0).RowStride
      = 0 := by decide
  have hu : unpackRowPitch 8 2 4294967295 = 8589934592 := by decide
  refine ⟨hp, by decide, by rw [hs], hu, ?_⟩
  rw [hp, hs, hu]
  decide

/-! ### Divisors -/

/-- With at least one byte per pixel and a destination at least one pixel wide
and high, a division of `setBufferToTextureCopyParams` has a zero divisor
exactly when the destination is one pixel wide or one pixel high: the zero
divisor is then that of a half-texel offset. -/
theorem setBufferToTextureCopyParamsDivisors_zero_iff (destSize : gl.Extents) (b : Nat)
    (alignment : Int) (hb : 1 ≤ b) (hw : 1 ≤ destSize.width) (hh : 1 ≤ destSize.height) :
    (0 : Int) ∈ setBufferToTextureCopyParamsDivisors destSize b alignment
      ↔ destSize.width = 1 ∨ destSize.height = 1 := by
  have hm := alignmentPixels_pos (toUnsigned alignment) b hb
  simp only [setBufferToTextureCopyParamsDivisors]
  split <;>
    simp only [List.mem_append, List.mem_cons, List.mem_singleton, List.not_mem_nil,
      List.append_nil, or_false, false_or] <;> omega

/-- Witness: a 4 x 4 destination has no zero divisor. -/
theorem setBufferToTextureCopyParamsDivisors_zero_iff_witness :
    (0 : Int) ∉ setBufferToTextureCopyParamsDivisors ⟨4, 4, 1⟩ 4 4 := fun h =>
  absurd ((setBufferToTextureCopyParamsDivisors_zero_iff ⟨4, 4, 1⟩ 4 4
    (by decide) (by decide) (by decide)).1 h) (by decide)

/-- C22 (failing input). A destination 1 pixel wide and 4 pixels high with
four bytes per pixel and unpack alignment 4 has `bytesPerPixel >= 1`,
alignment `>= 1`, width `>= 1` and height `>= 1`, and the first division of
`setBufferToTextureCopyParams`, `0.5f / static_cast<float>(destSize.width - 1)`,
has the divisor zero; the same holds for the second division when the
destination is 1 pixel high. -/
theorem halfTexel_divisor_zero_for_unit_extent :
    setBufferToTextureCopyParamsDivisors ⟨1, 4, 1⟩ 4 4 = [0, 3, 4, 1, 1, 4, 1, 4] ∧
    (0 : Int) ∈ setBufferToTextureCopyParamsDivisors ⟨1, 4, 1⟩ 4 4 ∧
    setBufferToTextureCopyParamsDivisors ⟨4, 1, 1⟩ 4 4 = [3, 0, 4, 1, 4, 1, 4, 1] ∧
    (0 : Int) ∈ setBufferToTextureCopyParamsDivisors ⟨4, 1, 1⟩ 4 4 := by
  decide

end rx
